import Mathlib

/-!
# apitest: benchmark report, event handling, frame rendering and process exit

A shallow embedding of `src/framework/apitest.cpp`.

Conventions of the embedding:

* `std::string` is `String`; names are taken to be plain one-byte-per-character text
  without embedded NUL, so that `%s` prints a name as it is and `<` on names is the
  lexicographic order of `std::string`.
* `double` is `ℚ` and its arithmetic is exact; where `printf` is handed such a value for
  `%.3f`, the value is taken to the nearest `double` first. `unsigned int`, `GLuint` and
  `unsigned long long` are `Nat`, reduced modulo `2 ^ 32` resp. `2 ^ 64` where the program
  stores a computed value.
* Calls to collaborators (graphics API, problem, OpenGL, timer, console) are recorded in a
  trace, in the order in which the program issues them.
-/

namespace ApiTest

/-! ## The report: `BenchmarkRow`, `BechmarkSorter`, `asTable` -/

/-- The struct `BenchmarkRow` (apitest.cpp:262-273). -/
structure BenchmarkRow where
  mGfxApiName : String
  mProblemName : String
  mSolutionName : String
  mFrameCount : Nat
  mElapsedS : ℚ
  mWorkCount : Nat
  mFramesPerSecond : ℚ
  mMillisecondsPerFrame : ℚ
  mWorkPerSecond : ℚ
deriving DecidableEq

/-- The comparator `BechmarkSorter` (apitest.cpp:276-285). -/
def BechmarkSorter (_lhs _rhs : BenchmarkRow) : Bool :=
  if _lhs.mProblemName < _rhs.mProblemName then true
  else if _lhs.mProblemName > _rhs.mProblemName then false
  else if _lhs.mGfxApiName < _rhs.mGfxApiName then true
  else if _lhs.mGfxApiName > _rhs.mGfxApiName then false
  else decide (_lhs.mMillisecondsPerFrame < _rhs.mMillisecondsPerFrame)

/-- One entry of `BenchmarkResults` as `asTable` reads it: the key
`(gfxApiName, problemName, solutionName)` and the value
`(frameCount, elapsedS, workCount)`. -/
abbrev BenchmarkEntry := (String × String × String) × (Nat × ℚ × Nat)

/-- The container `BenchmarkResults`, whose declaration is in a header outside the
sources at hand: `asTable` only walks it from `cbegin()` to `cend()`, so it is taken
as the sequence of its entries in iteration order. -/
abbrev BenchmarkResults := List BenchmarkEntry

/-- Insertion of one element into a sorted sequence, before the first element that
`comp` places after it. -/
def sortInsert {α : Type} (comp : α → α → Bool) (x : α) : List α → List α
  | [] => [x]
  | y :: ys => if comp x y then x :: y :: ys else y :: sortInsert comp x ys

/-- The call `std::sort(first, last, comp)`, as an insertion sort (what the library runs
on short ranges). The standard fixes the result up to the order of elements that
`comp` does not separate. -/
def stdSort {α : Type} (comp : α → α → Bool) (rows : List α) : List α :=
  rows.foldl (fun sorted x => sortInsert comp x sorted) []

/-- Blanks that fill a field of `s` up to the minimum width `w`. -/
def fill (w : Nat) (s : String) : String :=
  String.mk (List.replicate (w - s.length) ' ')

/-- The conversion `%-<w>s`: left-justified, at least `w` wide, never cut. -/
def padRight (w : Nat) (s : String) : String := s ++ fill w s

/-- The conversion `%<w>s`: right-justified, at least `w` wide, never cut. -/
def padLeft (w : Nat) (s : String) : String := fill w s ++ s

/-- Decimal numeral of a natural number. -/
def decimal (n : Nat) : String := Nat.repr n

/-- The numeral printed by `%d` for an `unsigned int` argument: the 32 bits are read as an
`int`, so a value from `2 ^ 31` on is printed as the negative number with these bits. -/
def fmtD (n : Nat) : String :=
  if n % 2 ^ 32 < 2 ^ 31 then decimal (n % 2 ^ 32) else "-" ++ decimal (2 ^ 32 - n % 2 ^ 32)

/-- The integer nearest to `a / b`, a tie going to the even one. -/
def roundHalfEven (a b : Nat) : Nat :=
  if 2 * (a % b) < b then a / b
  else if b < 2 * (a % b) then a / b + 1
  else if (a / b) % 2 = 0 then a / b else a / b + 1

/-- The number of binary digits of `n`, with `fuel` at least that number. -/
def bitLength : Nat → Nat → Nat
  | 0, _ => 0
  | fuel + 1, n => if n = 0 then 0 else bitLength fuel (n / 2) + 1

/-- The binary exponent `e` of the last place of the 53-bit significand of `n / d`, for
which `2 ^ 52 ≤ n / (d * 2 ^ e) < 2 ^ 53`. -/
def lastPlace (n d : Nat) : Int :=
  let e0 : Int := (bitLength n n : Int) - (bitLength d d : Int) - 52
  if n * 2 ^ (-e0).toNat < 2 ^ 52 * (d * 2 ^ e0.toNat) then e0 - 1 else e0

/-- The `double` nearest to `q`, a tie going to the even significand; the exponent range
of the format is not limited. A value that is a `double` already is kept. -/
def toDouble (q : ℚ) : ℚ :=
  if q = 0 then 0
  else
    let e := lastPlace q.num.natAbs q.den
    let m := roundHalfEven (q.num.natAbs * 2 ^ (-e).toNat) (q.den * 2 ^ e.toNat)
    (if q < 0 then -1 else 1) * (m : ℚ) * 2 ^ e.toNat / 2 ^ (-e).toNat

/-- Thousandths of the absolute value of the `double` that `%.3f` is handed for `q`,
rounded to the nearest, a tie going to the even one, as `printf` rounds the binary
value. -/
def milli (q : ℚ) : Nat := roundHalfEven (1000 * (toDouble q).num.natAbs) (toDouble q).den

/-- The numeral printed by `%.3f`: sign, integer part, point, three decimals. -/
def fmtF3 (q : ℚ) : String :=
  (if q < 0 then "-" else "") ++ decimal (milli q / 1000) ++ "." ++
    String.mk (List.replicate (3 - (decimal (milli q % 1000)).length) '0') ++
    decimal (milli q % 1000)

/-- What `snprintf(buffer, size, ...)` leaves in `buffer`: the formatted text cut to
`size - 1` characters. -/
def snprintf (size : Nat) (text : String) : String := String.mk (text.data.take (size - 1))

/-- The format `kHeaderFmt` (also `kRowFailFmt`, the same text):
`" %-23s %-10s %-30s %7s %12s %12s %12s\n"`. -/
def kHeaderFmt (a b c d e f g : String) : String :=
  " " ++ padRight 23 a ++ " " ++ padRight 10 b ++ " " ++ padRight 30 c ++ " " ++
    padLeft 7 d ++ " " ++ padLeft 12 e ++ " " ++ padLeft 12 f ++ " " ++ padLeft 12 g ++ "\n"

/-- The format `kRowFmt`: `" %-23s %-10s %-30s %7d %12.3f %12.3f %12.3f\n"`. -/
def kRowFmt (a b c : String) (d : Nat) (e f g : ℚ) : String :=
  " " ++ padRight 23 a ++ " " ++ padRight 10 b ++ " " ++ padRight 30 c ++ " " ++
    padLeft 7 (fmtD d) ++ " " ++ padLeft 12 (fmtF3 e) ++ " " ++ padLeft 12 (fmtF3 f) ++ " " ++
    padLeft 12 (fmtF3 g) ++ "\n"

/-- The format `kRowFailFmt`: `" %-23s %-10s %-30s %7s %12s %12s %12s\n"`. -/
def kRowFailFmt (a b c d e f g : String) : String := kHeaderFmt a b c d e f g

/-- The header line that `asTable` writes first (apitest.cpp:296), into
`sizeof(buffer)-1` bytes. -/
def headerLine : String :=
  snprintf 1023 (kHeaderFmt "Problem" "API" "Solution" "Frames" "Elapsed (s)" "fps" "ms/f")

/-- The first loop of `asTable` (apitest.cpp:302-327): one step. A row is pushed only in
the branch `frameCount != 0 && elapsedS != 0.0`; the other branch builds a row and
drops it. -/
def accumulateStep (rows : List BenchmarkRow) (it : BenchmarkEntry) : List BenchmarkRow :=
  let gfxApiName := it.1.1
  let problemName := it.1.2.1
  let solutionName := it.1.2.2
  let frameCount := it.2.1
  let elapsedS := it.2.2.1
  let workCount := it.2.2.2
  if frameCount != 0 && elapsedS != 0 then
    let fps := (frameCount : ℚ) / elapsedS
    let mspf := elapsedS * 1000 / (frameCount : ℚ)
    let wps := (workCount : ℚ) / elapsedS
    rows ++ [⟨gfxApiName, problemName, solutionName, frameCount, elapsedS, workCount,
      fps, mspf, wps⟩]
  else
    rows

/-- The vector `rows` after the first loop of `asTable`. -/
def accumulateRows (_results : BenchmarkResults) : List BenchmarkRow :=
  _results.foldl accumulateStep []

/-- The vector `rows` after `std::sort(rows.begin(), rows.end(), BechmarkSorter)`
(apitest.cpp:329). -/
def sortedRows (_results : BenchmarkResults) : List BenchmarkRow :=
  stdSort BechmarkSorter (accumulateRows _results)

/-- The text that the output loop of `asTable` appends for one row
(apitest.cpp:334-338). -/
def rowLine (row : BenchmarkRow) : String :=
  if row.mFrameCount != 0 && row.mElapsedS != 0 then
    snprintf 1024 (kRowFmt row.mProblemName row.mGfxApiName row.mSolutionName
      row.mFrameCount row.mElapsedS row.mFramesPerSecond row.mMillisecondsPerFrame)
  else
    snprintf 1024 (kRowFailFmt row.mProblemName row.mGfxApiName row.mSolutionName
      "N/A" "N/A" "N/A" "N/A")

/-- The function `asTable` (apitest.cpp:288-342). -/
def asTable (_results : BenchmarkResults) : String :=
  (sortedRows _results).foldl (fun retStr row => retStr ++ rowLine row) ("" ++ headerLine)

/-- The data lines of the report: the texts appended after the header, in order. -/
def dataLines (_results : BenchmarkResults) : List String :=
  (sortedRows _results).map rowLine

/-- The store of the scenario: `(GL, Cubes, Fast)` with 600 frames in 10 s and
`(GL, Cubes, Slow)` with no frame. -/
def scenarioStore : BenchmarkResults :=
  [(("GL", "Cubes", "Fast"), (600, 10, 0)), (("GL", "Cubes", "Slow"), (0, 0, 0))]

/-! ## Events: `PostQuitEvent`, `OnEvent` -/

/-- The field `window.event` of a window event, as far as `OnEvent` tells values apart. -/
inductive WindowEventID
  | MOVED
  | CLOSE
  | other (id : Nat)
deriving DecidableEq

/-- The field `key.keysym.sym` of a keyboard event, as far as `OnEvent` tells values apart. -/
inductive Keycode
  | F4
  | LEFT
  | RIGHT
  | UP
  | DOWN
  | a
  | other (code : Nat)
deriving DecidableEq

/-- An `SDL_Event`, by its `type`: the cases `OnEvent` and `main` look at, and all others. -/
inductive SDL_Event
  | WINDOWEVENT (event : WindowEventID)
  | KEYUP (sym : Keycode) (mod : Nat)
  | QUIT
  | other (type : Nat)
deriving DecidableEq

/-- The mask `KMOD_ALT` of SDL (`KMOD_LALT | KMOD_RALT`). -/
def KMOD_ALT : Nat := 0x0300

/-- The member functions of `ApplicationState` that `OnEvent` may invoke. -/
inductive AppCall
  | BroadcastToOtherWindows (event : SDL_Event)
  | PrevProblem
  | NextProblem
  | PrevSolution
  | NextSolution
  | NextAPI
deriving DecidableEq

/-- The class `ApplicationState`, declared in `appstate.h` outside the sources at hand:
the member functions that `OnEvent` uses, over an arbitrary state type. -/
structure ApplicationState (σ : Type) where
  IsBenchmarkMode : σ → Bool
  BroadcastToOtherWindows : SDL_Event → σ → σ
  PrevProblem : σ → σ
  NextProblem : σ → σ
  PrevSolution : σ → σ
  NextSolution : σ → σ
  NextAPI : σ → σ

/-- What a call of `OnEvent` has done: the application state it leaves, the member
functions of the application state it invoked (in order) and the events it pushed
with `SDL_PushEvent`. -/
structure Handled (σ : Type) where
  appState : σ
  calls : List AppCall
  pushed : List SDL_Event

/-- The function `PostQuitEvent` (apitest.cpp:34-39): pushes one `SDL_QUIT` event. -/
def PostQuitEvent {σ : Type} (h : Handled σ) : Handled σ :=
  { h with pushed := h.pushed ++ [SDL_Event.QUIT] }

/-- One member function of the application state, invoked and recorded. -/
def invoke {σ : Type} (f : σ → σ) (c : AppCall) (h : Handled σ) : Handled σ :=
  { h with appState := f h.appState, calls := h.calls ++ [c] }

/-- The function `OnEvent` (apitest.cpp:42-124); `WIN32` tells whether `_WIN32` is
defined. -/
def OnEvent {σ : Type} (app : ApplicationState σ) (WIN32 : Bool) (_event : SDL_Event)
    (_appState : σ) : Handled σ :=
  let h : Handled σ := ⟨_appState, [], []⟩
  match _event with
  | SDL_Event.WINDOWEVENT WindowEventID.MOVED =>
    invoke (app.BroadcastToOtherWindows _event) (AppCall.BroadcastToOtherWindows _event) h
  | SDL_Event.WINDOWEVENT WindowEventID.CLOSE => PostQuitEvent h
  | SDL_Event.WINDOWEVENT (WindowEventID.other _) => h
  | SDL_Event.KEYUP Keycode.F4 mod =>
    if WIN32 && (mod &&& KMOD_ALT != 0) then PostQuitEvent h else h
  | SDL_Event.KEYUP Keycode.LEFT _ =>
    if !app.IsBenchmarkMode _appState then invoke app.PrevProblem AppCall.PrevProblem h else h
  | SDL_Event.KEYUP Keycode.RIGHT _ =>
    if !app.IsBenchmarkMode _appState then invoke app.NextProblem AppCall.NextProblem h else h
  | SDL_Event.KEYUP Keycode.UP _ =>
    if !app.IsBenchmarkMode _appState then invoke app.PrevSolution AppCall.PrevSolution h else h
  | SDL_Event.KEYUP Keycode.DOWN _ =>
    if !app.IsBenchmarkMode _appState then invoke app.NextSolution AppCall.NextSolution h else h
  | SDL_Event.KEYUP Keycode.a _ =>
    if !app.IsBenchmarkMode _appState then invoke app.NextAPI AppCall.NextAPI h else h
  | SDL_Event.KEYUP (Keycode.other _) _ => h
  | SDL_Event.QUIT => h
  | SDL_Event.other _ => h

/-- The navigation operations among the member functions of the application state. -/
def AppCall.isNavigation : AppCall → Bool
  | AppCall.BroadcastToOtherWindows _ => false
  | _ => true

/-- The navigation operation that the claim assigns to a key: LEFT, RIGHT, UP, DOWN, A
to PrevProblem, NextProblem, PrevSolution, NextSolution, NextAPI. -/
def navigationOfKey : Keycode → Option AppCall
  | Keycode.LEFT => some AppCall.PrevProblem
  | Keycode.RIGHT => some AppCall.NextProblem
  | Keycode.UP => some AppCall.PrevSolution
  | Keycode.DOWN => some AppCall.NextSolution
  | Keycode.a => some AppCall.NextAPI
  | _ => none

/-- A selection state for trying `OnEvent`: the indices of the active API, problem and
solution, and the benchmark flag. -/
structure Selection where
  api : Nat
  problem : Nat
  solution : Nat
  benchmark : Bool
deriving DecidableEq

/-- An application with three APIs, problems and solutions, cycling through them. -/
def cyclingApp : ApplicationState Selection where
  IsBenchmarkMode s := s.benchmark
  BroadcastToOtherWindows _ s := s
  PrevProblem s := { s with problem := (s.problem + 2) % 3, solution := 0 }
  NextProblem s := { s with problem := (s.problem + 1) % 3, solution := 0 }
  PrevSolution s := { s with solution := (s.solution + 2) % 3 }
  NextSolution s := { s with solution := (s.solution + 1) % 3 }
  NextAPI s := { s with api := (s.api + 1) % 3 }

/-! ## Frames: the globals, the timer query and `Render` -/

/-- The struct `Vec4` of the clear colour. -/
structure Vec4 where
  x : ℚ
  y : ℚ
  z : ℚ
  w : ℚ
deriving DecidableEq

/-- A call that `Render` makes to a collaborator: the problem, the graphics API, OpenGL,
the timer, the console. -/
inductive Call
  | GetClearValues
  | Clear (color : Vec4) (depth : ℚ)
  | glGenQueries (name : Nat)
  | timerRead (ticks : Nat)
  | glBeginQuery (name : Nat)
  | problemRender
  | glEndQuery
  | glGetQueryObjectuiv (name : Nat) (result : Nat)
  | printf (cpu gpu fps : Option ℚ)
  | SwapBuffers
deriving DecidableEq

/-- The time-elapsed query objects of the OpenGL context. -/
structure GLQueries where
  /-- The number of names `glGenQueries` has handed out; names are `1, 2, ...`. -/
  generated : Nat
  /-- The query object that is collecting `GL_TIME_ELAPSED`, between begin and end. -/
  active : Option Nat
  /-- The GPU time, in nanoseconds, of the commands submitted since `glBeginQuery`. -/
  collecting : Nat
  /-- The result each ended query object holds, the latest first. -/
  results : List (Nat × Nat)
deriving DecidableEq

/-- The call `glGenQueries(1, &name)`: a fresh non-zero name. -/
def GLQueries.glGenQueries (gl : GLQueries) : Nat × GLQueries :=
  (gl.generated + 1, { gl with generated := gl.generated + 1 })

/-- The call `glBeginQuery(GL_TIME_ELAPSED, name)`. -/
def GLQueries.glBeginQuery (gl : GLQueries) (name : Nat) : GLQueries :=
  { gl with active := some name, collecting := 0 }

/-- Commands taking `nanos` of GPU time are submitted. -/
def GLQueries.submit (gl : GLQueries) (nanos : Nat) : GLQueries :=
  if gl.active.isSome then { gl with collecting := gl.collecting + nanos } else gl

/-- The call `glEndQuery(GL_TIME_ELAPSED)`: the active query object gets its result. -/
def GLQueries.glEndQuery (gl : GLQueries) : GLQueries :=
  match gl.active with
  | some name => { gl with active := none, results := (name, gl.collecting) :: gl.results }
  | none => gl

/-- The call `glGetQueryObjectuiv(name, GL_QUERY_RESULT, &out)`: waits until the result of
the query object is there and stores it in a `GLuint`. -/
def GLQueries.glGetQueryObjectuiv (gl : GLQueries) (name : Nat) : Nat :=
  ((gl.results.lookup name).getD 0) % 2 ^ 32

/-- The globals of apitest.cpp:27-29, the query objects and the calls made so far. The
`int` counter `frames` is an integer without overflow. -/
structure World where
  cpuStart : Nat
  now : Nat
  cpuTotal : Nat
  updateCounterStart : Nat
  frames : Int
  queryName : Nat
  gpuTotal : Nat
  gpuTime : Nat
  gl : GLQueries
  trace : List Call
deriving DecidableEq

/-- The conversions `timer::ToSec` and `timer::ToMSec` of `timer.h`, outside the sources at
hand: from timer ticks to seconds and to milliseconds. -/
structure Timer where
  ToSec : Nat → ℚ
  ToMSec : Nat → ℚ

/-- A `Problem` as `Render` uses it: `GetClearValues` may overwrite the clear colour and
the clear depth it is handed. -/
structure Problem where
  GetClearValues : Vec4 × ℚ → Vec4 × ℚ

/-- A `GfxBaseApi` as `Render` uses it: the target of `Clear` and `SwapBuffers`. -/
structure GfxBaseApi where
  name : String

/-- What the environment supplies during one call of `Render`: the three values
`timer::Read()` returns, in order, and the GPU time in nanoseconds of the commands that
`_activeProblem->Render()` submits. -/
structure FrameInput where
  read1 : Nat
  read2 : Nat
  read3 : Nat
  gpuNanos : Nat
deriving DecidableEq

/-- Subtraction of `unsigned long long`. -/
def sub64 (a b : Nat) : Nat := (a + 2 ^ 64 - b % 2 ^ 64) % 2 ^ 64

/-- Division of `double`: no rational value when the divisor is zero (`inf` or `nan`). -/
def fdiv (a : Option ℚ) (b : Option ℚ) : Option ℚ :=
  match a, b with
  | some x, some y => if y = 0 then none else some (x / y)
  | _, _ => none

/-- A call is recorded in the trace. -/
def World.log (w : World) (c : Call) : World := { w with trace := w.trace ++ [c] }

/-- Lines 141-143 of `Render`: the query object is created on first use. -/
def ensureQuery (w : World) : World :=
  if w.queryName = 0 then
    let r := w.gl.glGenQueries
    ({ w with queryName := r.1, gl := r.2 }).log (Call.glGenQueries r.1)
  else w

/-- Lines 145-160 of `Render`: the timed section. -/
def timedSection (inp : FrameInput) (w : World) : World :=
  let w := ({ w with cpuStart := inp.read1 }).log (Call.timerRead inp.read1)
  let w := ({ w with gl := w.gl.glBeginQuery w.queryName }).log (Call.glBeginQuery w.queryName)
  let w := ({ w with gl := w.gl.submit inp.gpuNanos, frames := w.frames + 1 }).log
    Call.problemRender
  let w := ({ w with gl := w.gl.glEndQuery }).log Call.glEndQuery
  let w := ({ w with gpuTime := w.gl.glGetQueryObjectuiv w.queryName }).log
    (Call.glGetQueryObjectuiv w.queryName (w.gl.glGetQueryObjectuiv w.queryName))
  let w := { w with gpuTotal := (w.gpuTotal + w.gpuTime) % 2 ^ 32 }
  let w := ({ w with cpuTotal := (w.cpuTotal + sub64 inp.read2 w.cpuStart) % 2 ^ 64 }).log
    (Call.timerRead inp.read2)
  ({ w with now := inp.read3 }).log (Call.timerRead inp.read3)

/-- Lines 161-171 of `Render`: the live summary. -/
def liveSummary (timer : Timer) (w : World) : World :=
  if timer.ToSec (sub64 w.now w.updateCounterStart) > 1 then
    let cpu := fdiv (some (timer.ToMSec w.cpuTotal)) (some (w.frames : ℚ))
    let gpu := fdiv (some ((w.gpuTotal : ℚ) / 1000000)) (some (w.frames : ℚ))
    let fps := fdiv (some 1000) (fdiv (some ((w.gpuTotal : ℚ) / 1000000)) (some (w.frames : ℚ)))
    let w := w.log (Call.printf cpu gpu fps)
    { w with frames := 0, cpuTotal := 0, gpuTotal := 0, updateCounterStart := w.now }
  else w

/-- The function `Render` (apitest.cpp:127-175). A null problem returns at once; with a
problem, a null API fails the assertion, and there is no result. -/
def Render (timer : Timer) (_activeProblem : Option Problem) (_activeApi : Option GfxBaseApi)
    (inp : FrameInput) (w : World) : Option World :=
  match _activeProblem with
  | none => some w
  | some problem =>
    match _activeApi with
    | none => none
    | some _ =>
      let clear := problem.GetClearValues (⟨0, 0, 0, 1⟩, 1)
      let w := w.log Call.GetClearValues
      let w := w.log (Call.Clear clear.1 clear.2)
      let w := ensureQuery w
      let w := timedSection inp w
      let w := liveSummary timer w
      some (w.log Call.SwapBuffers)

/-- A sequence of calls of `Render`, one for each input, with the same problem and API. -/
def renderFrames (timer : Timer) (problem : Option Problem) (api : Option GfxBaseApi) :
    List FrameInput → World → Option World
  | [], w => some w
  | inp :: rest, w =>
    match Render timer problem api inp w with
    | none => none
    | some w1 => renderFrames timer problem api rest w1

/-- The globals as `main` leaves them before the loop (apitest.cpp:27-29 and 229), in a
context without query objects. -/
def startWorld (startTime : Nat) : World :=
  { cpuStart := 0, now := 0, cpuTotal := 0, updateCounterStart := startTime, frames := 0,
    queryName := 0, gpuTotal := 0, gpuTime := 0,
    gl := { generated := 0, active := none, collecting := 0, results := [] }, trace := [] }

/-- The calls made between two states of the world. -/
def callsBetween (before after : World) : List Call := after.trace.drop before.trace.length


/-! ## The process: `InitSDL`, `Init`, `main` -/

/-- What the environment answers to `main` before the loop. -/
structure Startup where
  /-- The argument count `argc`. -/
  argc : Nat
  /-- The value `SDL_Init` returns. -/
  sdlInit : Int
  /-- The value `timer::Init` returns when it is called. -/
  timerInit : Bool
  /-- The value `app->IsBenchmarkMode()` returns for the options of the command line. -/
  benchmarkMode : Bool

/-- What the environment answers in one iteration of the loop of `main`: the value
of `app->IsBenchmarkModeComplete()` and the event `SDL_PollEvent` delivers, if any. -/
structure Iteration where
  benchmarkComplete : Bool
  polled : Option SDL_Event

/-- The steps of `main` that are visible from outside. -/
inductive MainCall
  | consoleError
  | ProcessCommandLine
  | chdir
  | SDL_Init
  | timerInit
  | timerRead
  | newApplicationState
  | OnEvent (event : SDL_Event)
  | Update
  | Render
  | consoleLogResults
  | SafeDelete
  | Cleanup
deriving DecidableEq

/-- Modelled from the spec: `console::error` of `console.h`, which is not among the sources
at hand. The console collaborator receives the message, and the call returns to its
caller (the case for which `main` has its `return -1`). -/
def consoleError (steps : List MainCall) : List MainCall := steps ++ [MainCall.consoleError]

/-- The function `InitSDL` (apitest.cpp:178-181). -/
def InitSDL (env : Startup) : Bool := decide (env.sdlInit ≥ 0)

/-- The function `Init` (apitest.cpp:184-204): the result and the steps taken.
`timer::Init` is called only after `InitSDL` has succeeded. -/
def Init (env : Startup) : Bool × List MainCall :=
  if !InitSDL env then
    (false, consoleError [MainCall.chdir, MainCall.SDL_Init])
  else if !env.timerInit then
    (false, consoleError [MainCall.chdir, MainCall.SDL_Init, MainCall.timerInit])
  else
    (true, [MainCall.chdir, MainCall.SDL_Init, MainCall.timerInit])

/-- The loop of `main` (apitest.cpp:233-248) over the iterations the environment has
scripted: the steps taken when the loop is left, and no result when the script ends
with the loop still running. -/
def mainLoop (benchmarkMode : Bool) : Bool → List Iteration → List MainCall →
    Option (List MainCall)
  | true, _, steps => some steps
  | false, [], _ => none
  | false, it :: rest, steps =>
    if benchmarkMode && it.benchmarkComplete then some steps
    else
      match it.polled with
      | some sdl_event =>
        mainLoop benchmarkMode (false || sdl_event == SDL_Event.QUIT) rest
          (steps ++ [MainCall.OnEvent sdl_event])
      | none => mainLoop benchmarkMode false rest (steps ++ [MainCall.Update, MainCall.Render])

/-- The function `main` (apitest.cpp:215-259): the exit code it returns and the steps
taken, or no result when the scripted iterations end with the loop still running. -/
def main (env : Startup) (script : List Iteration) : Option (Int × List MainCall) :=
  let steps := (if env.argc = 0 then consoleError [] else []) ++
    [MainCall.ProcessCommandLine]
  let init := Init env
  let steps := steps ++ init.2
  if !init.1 then some (-1, steps)
  else
    let steps := steps ++ [MainCall.timerRead, MainCall.newApplicationState]
    match mainLoop env.benchmarkMode false script steps with
    | none => none
    | some steps =>
      let steps := if env.benchmarkMode then steps ++ [MainCall.consoleLogResults] else steps
      some (0, steps ++ [MainCall.SafeDelete, MainCall.Cleanup])

/-- An iteration of the script delivers a quit event, or finds the benchmark complete. -/
def Iteration.ends (benchmarkMode : Bool) (it : Iteration) : Bool :=
  (benchmarkMode && it.benchmarkComplete) || it.polled == some SDL_Event.QUIT

/-! ## Definitions for the statements about frames -/

/-- The call is a `Clear` of the graphics API. -/
def Call.isClear : Call → Bool
  | Call.Clear _ _ => true
  | _ => false

/-- The call is a `glBeginQuery`. -/
def Call.isBeginQuery : Call → Bool
  | Call.glBeginQuery _ => true
  | _ => false

/-- The call is the `printf` of the live summary. -/
def Call.isPrintf : Call → Bool
  | Call.printf _ _ _ => true
  | _ => false

/-- The calls strictly between the first `glBeginQuery` and the `glEndQuery` that
follows it. -/
def bracketed (calls : List Call) : List Call :=
  ((calls.dropWhile (fun c => !c.isBeginQuery)).drop 1).takeWhile
    (fun c => c != Call.glEndQuery)

/-- The calls that one call of `Render` makes (none when it has no result). -/
def renderCalls (timer : Timer) (problem : Option Problem) (api : Option GfxBaseApi)
    (inp : FrameInput) (w : World) : List Call :=
  match Render timer problem api inp w with
  | some w1 => callsBetween w w1
  | none => []

/-- A timer whose ticks are milliseconds. -/
def milliTimer : Timer := ⟨fun t => (t : ℚ) / 1000, fun t => (t : ℚ)⟩

/-- A problem that keeps the clear values it is handed. -/
def plainProblem : Problem := ⟨fun v => v⟩

/-- The OpenGL API object. -/
def glApi : GfxBaseApi := ⟨"GL"⟩


/-- The summary that `liveSummary` prints from the totals of a world. -/
def summaryCall (timer : Timer) (w : World) : Call :=
  Call.printf (fdiv (some (timer.ToMSec w.cpuTotal)) (some (w.frames : ℚ)))
    (fdiv (some ((w.gpuTotal : ℚ) / 1000000)) (some (w.frames : ℚ)))
    (fdiv (some 1000) (fdiv (some ((w.gpuTotal : ℚ) / 1000000)) (some (w.frames : ℚ))))

/-- The world in which `liveSummary` runs during a call of `Render` with a problem and
an API: after the clear, the creation of the query object and the timed section. -/
def timedWorld (p : Problem) (inp : FrameInput) (w : World) : World :=
  timedSection inp (ensureQuery ((w.log Call.GetClearValues).log
    (Call.Clear (p.GetClearValues (⟨0, 0, 0, 1⟩, 1)).1 (p.GetClearValues (⟨0, 0, 0, 1⟩, 1)).2)))


/-- A frame for trying `Render`: the timer reads 10, 12, 13 and the problem's commands
take 5000 ns of GPU time. -/
def firstFrame : FrameInput := ⟨10, 12, 13, 5000⟩

/-- A second frame: the timer reads 20, 23, 24 and the commands take 7000 ns. -/
def secondFrame : FrameInput := ⟨20, 23, 24, 7000⟩


/-- The CPU ticks that a call of `Render` measures for its frame. -/
def FrameInput.cpuTicks (f : FrameInput) : Nat := sub64 f.read2 f.read1

/-- The GPU time that a call of `Render` is handed for its frame, as a `GLuint`. -/
def FrameInput.gpuTime (f : FrameInput) : Nat := f.gpuNanos % 2 ^ 32

/-- The live summary in the words of the claim: the timer reading at the previous summary
(or at start-up) and the frames rendered since then. -/
structure SummaryWindow where
  since : Nat
  rendered : List FrameInput
deriving DecidableEq

/-- One more frame, in the words of the claim: when more than one second has passed since
the previous summary, a summary is printed and the window starts again at the current
reading; otherwise the frame joins the window. -/
def SummaryWindow.step (timer : Timer) (win : SummaryWindow) (f : FrameInput) :
    SummaryWindow :=
  if timer.ToSec (f.read3 - win.since) > 1 then ⟨f.read3, []⟩
  else ⟨win.since, win.rendered ++ [f]⟩

/-- The window after a sequence of frames since start-up. -/
def summaryWindow (timer : Timer) (start : Nat) (fs : List FrameInput) : SummaryWindow :=
  fs.foldl (SummaryWindow.step timer) ⟨start, []⟩

/-- The summary line over exactly the frames `fs`: the average CPU milliseconds and GPU
milliseconds per frame, and the frame rate that the GPU average allows. -/
def averagesOver (timer : Timer) (fs : List FrameInput) : Call :=
  Call.printf
    (some (timer.ToMSec ((fs.map FrameInput.cpuTicks).sum % 2 ^ 64) / (fs.length : ℚ)))
    (some ((((fs.map FrameInput.gpuTime).sum % 2 ^ 32 : Nat) : ℚ) / 1000000 / (fs.length : ℚ)))
    (fdiv (some 1000)
      (some ((((fs.map FrameInput.gpuTime).sum % 2 ^ 32 : Nat) : ℚ) / 1000000 /
        (fs.length : ℚ))))

/-- Three frames for trying the live summary with `milliTimer`: at 400 ms, 900 ms and
1500 ms after a start at 0. -/
def summaryFrames : List FrameInput :=
  [⟨100, 300, 400, 2000000⟩, ⟨500, 800, 900, 4000000⟩]

/-- The frame at 1500 ms. -/
def summaryFrame : FrameInput := ⟨1000, 1400, 1500, 3000000⟩


/-- The globals agree with a summary window: `updateCounterStart` is its start, `frames`
the number of its frames, `cpuTotal` and `gpuTotal` the sums over its frames, as stored. -/
def Agrees (w : World) (win : SummaryWindow) : Prop :=
  w.updateCounterStart = win.since ∧ w.frames = (win.rendered.length : Int) ∧
    w.cpuTotal = (win.rendered.map FrameInput.cpuTicks).sum % 2 ^ 64 ∧
    w.gpuTotal = (win.rendered.map FrameInput.gpuTime).sum % 2 ^ 32

instance (w : World) (win : SummaryWindow) : Decidable (Agrees w win) := by
  unfold Agrees
  infer_instance

/-! ## Definitions for the statements about the report -/

/-- The entry has a frame count other than 0 and an elapsed time other than 0. -/
def measured (e : BenchmarkEntry) : Bool := e.2.1 != 0 && e.2.2.1 != 0

/-- The row of a store entry with its derived metrics: frames per second, milliseconds
per frame and work per second. -/
def rowOf (e : BenchmarkEntry) : BenchmarkRow :=
  ⟨e.1.1, e.1.2.1, e.1.2.2, e.2.1, e.2.2.1, e.2.2.2,
    (e.2.1 : ℚ) / e.2.2.1, e.2.2.1 * 1000 / (e.2.1 : ℚ), (e.2.2.2 : ℚ) / e.2.2.1⟩

/-- A store with two solutions that take the same time per frame: 600 frames in 10 s and
300 frames in 5 s. -/
def tieStore : BenchmarkResults :=
  [(("GL", "Cubes", "Fast"), (600, 10, 0)), (("GL", "Cubes", "Quick"), (300, 5, 0))]

/-- A store with two solutions of different speed, the slower one first in the store. -/
def twoStore : BenchmarkResults :=
  [(("GL", "Cubes", "Naive"), (600, 20, 0)), (("GL", "Cubes", "Tuned"), (600, 10, 0))]


/-- Every field of the row fits the width of its column: 23, 10, 30, 7, 12, 12, 12. -/
def fitsColumns (row : BenchmarkRow) : Prop :=
  row.mProblemName.length ≤ 23 ∧ row.mGfxApiName.length ≤ 10 ∧
    row.mSolutionName.length ≤ 30 ∧ (fmtD row.mFrameCount).length ≤ 7 ∧
    (fmtF3 row.mElapsedS).length ≤ 12 ∧ (fmtF3 row.mFramesPerSecond).length ≤ 12 ∧
    (fmtF3 row.mMillisecondsPerFrame).length ≤ 12

instance (row : BenchmarkRow) : Decidable (fitsColumns row) := by
  unfold fitsColumns
  infer_instance

/-- A store with the solution of this repository, whose name has 35 characters. -/
def longNameStore : BenchmarkResults :=
  [(("GL", "UntexturedObjects", "UntexturedObjectsGLBindlessIndirect"), (600, 10, 0))]


/-- The newline character. -/
def newline : Char := Char.ofNat 10

/-- The lines of a text: each line ends with its newline, except a last line that the
text leaves open. -/
def textLines : List Char → List (List Char)
  | [] => []
  | c :: cs =>
    if c = newline then [c] :: textLines cs
    else
      match textLines cs with
      | [] => [[c]]
      | line :: lines => (c :: line) :: lines

/-- The lines of the text that `asTable` returns. -/
def outputLines (text : String) : List String := (textLines text.data).map String.mk

/-- The text has no newline in it. -/
def noNewline (s : String) : Prop := newline ∉ s.data

instance (s : String) : Decidable (noNewline s) := by
  unfold noNewline
  infer_instance

/-- The line of a row as the report is meant to show it: the three names, the frame
count as a decimal numeral, then the elapsed seconds, the frames per second and the
milliseconds per frame to three decimals, in the columns of the header line. -/
def shownRow (problem api solution : String) (frames : Nat) (elapsed fps mspf : ℚ) : String :=
  " " ++ padRight 23 problem ++ " " ++ padRight 10 api ++ " " ++ padRight 30 solution ++ " " ++
    padLeft 7 (decimal frames) ++ " " ++ padLeft 12 (fmtF3 elapsed) ++ " " ++
    padLeft 12 (fmtF3 fps) ++ " " ++ padLeft 12 (fmtF3 mspf) ++ "\n"

/-- A name of 1100 characters. -/
def overlongName (c : Char) : String := String.mk (List.replicate 1100 c)

/-- A store with one solution whose name has 1100 characters. -/
def cutStore : BenchmarkResults :=
  [(("GL", "Cubes", overlongName 'x'), (600, 10, 0))]

/-- A store with two problems whose names have 1100 characters. -/
def twoCutStore : BenchmarkResults :=
  [(("GL", overlongName 'x', "Fast"), (600, 10, 0)),
    (("GL", overlongName 'y', "Fast"), (600, 20, 0))]

/-- A store with a frame count of `2 ^ 31`. -/
def manyFramesStore : BenchmarkResults :=
  [(("GL", "Cubes", "Fast"), (2147483648, 10, 0))]


/-- The text that `kRowFmt` makes of a row (apitest.cpp:335), before the buffer cuts it. -/
def formatted (row : BenchmarkRow) : String :=
  kRowFmt row.mProblemName row.mGfxApiName row.mSolutionName row.mFrameCount row.mElapsedS
    row.mFramesPerSecond row.mMillisecondsPerFrame


/-- A store with 128 frames in one second: 7.8125 ms per frame, half-way between two
numerals of three decimals. -/
def tieDigitStore : BenchmarkResults :=
  [(("GL", "Cubes", "Fast"), (128, 1, 0))]


/-- A store with one problem whose name has a newline in it. -/
def newlineStore : BenchmarkResults :=
  [(("GL", "Cubes\nSpheres", "Fast"), (600, 10, 0))]


/-! ## Theorems: events -/

theorem OnEvent_calls {σ : Type} (app : ApplicationState σ) (WIN32 : Bool) (ev : SDL_Event)
    (s : σ) :
    (OnEvent app WIN32 ev s).calls.filter AppCall.isNavigation =
      match ev with
      | SDL_Event.KEYUP sym _ =>
        if app.IsBenchmarkMode s then [] else (navigationOfKey sym).toList
      | _ => [] := by
  cases ev with
  | WINDOWEVENT e => cases e <;> simp [OnEvent, invoke, PostQuitEvent, AppCall.isNavigation]
  | KEYUP sym mod =>
    cases sym <;> cases hb : app.IsBenchmarkMode s <;>
      simp [OnEvent, invoke, PostQuitEvent, AppCall.isNavigation, navigationOfKey, hb] <;>
      split <;> simp
  | QUIT => simp [OnEvent]
  | other t => simp [OnEvent]

theorem OnEvent_benchmark {σ : Type} (app : ApplicationState σ) (WIN32 : Bool)
    (ev : SDL_Event) (s : σ) (hb : app.IsBenchmarkMode s = true)
    (hw : ∀ e, ev ≠ SDL_Event.WINDOWEVENT e) :
    (OnEvent app WIN32 ev s).appState = s ∧ (OnEvent app WIN32 ev s).calls = [] := by
  cases ev with
  | WINDOWEVENT e => exact absurd rfl (hw e)
  | KEYUP sym mod =>
    cases sym <;> simp [OnEvent, invoke, PostQuitEvent, hb]
    split <;> simp
  | QUIT => simp [OnEvent]
  | other t => simp [OnEvent]

/-- C6: the navigation operations that `OnEvent` invokes are none, except for a key-up of
LEFT, RIGHT, UP, DOWN or A outside benchmark mode, where it is the one operation
PrevProblem, NextProblem, PrevSolution, NextSolution, NextAPI of that key; a navigation
operation is invoked if and only if the state is not in benchmark mode and the event is
such a key-up; and in benchmark mode an event other than a window event, so every key
event, invokes nothing on the application state and leaves it as it was. -/
theorem C6_navigation_ignored_in_benchmark_mode {σ : Type} (app : ApplicationState σ)
    (WIN32 : Bool) (ev : SDL_Event) (s : σ) :
    ((OnEvent app WIN32 ev s).calls.filter AppCall.isNavigation =
      match ev with
      | SDL_Event.KEYUP sym _ =>
        if app.IsBenchmarkMode s then [] else (navigationOfKey sym).toList
      | _ => []) ∧
    ((∃ c ∈ (OnEvent app WIN32 ev s).calls, c.isNavigation = true) ↔
      (app.IsBenchmarkMode s = false ∧ ∃ sym mod, ev = SDL_Event.KEYUP sym mod ∧
        sym ∈ [Keycode.LEFT, Keycode.RIGHT, Keycode.UP, Keycode.DOWN, Keycode.a])) ∧
    (app.IsBenchmarkMode s = true → (∀ e, ev ≠ SDL_Event.WINDOWEVENT e) →
      (OnEvent app WIN32 ev s).appState = s ∧ (OnEvent app WIN32 ev s).calls = []) := by
  refine ⟨OnEvent_calls app WIN32 ev s, ?_, OnEvent_benchmark app WIN32 ev s⟩
  have h := OnEvent_calls app WIN32 ev s
  have hex : (∃ c ∈ (OnEvent app WIN32 ev s).calls, c.isNavigation = true) ↔
      (OnEvent app WIN32 ev s).calls.filter AppCall.isNavigation ≠ [] := by
    rw [Ne, List.filter_eq_nil_iff]
    push_neg
    rfl
  rw [hex, h]
  cases ev with
  | WINDOWEVENT e => simp
  | KEYUP sym mod =>
    cases hb : app.IsBenchmarkMode s <;> cases sym <;> simp [navigationOfKey]
  | QUIT => simp
  | other t => simp

/-- C6, tried on the cycling application: in benchmark mode the key-up of RIGHT leaves
the selection as it was, and outside benchmark mode it invokes NextProblem only. -/
theorem C6_navigation_check :
    (OnEvent cyclingApp false (SDL_Event.KEYUP Keycode.RIGHT 0) ⟨1, 2, 1, true⟩).appState =
      ⟨1, 2, 1, true⟩ ∧
    (OnEvent cyclingApp false (SDL_Event.KEYUP Keycode.RIGHT 0) ⟨1, 2, 1, false⟩).calls =
      [AppCall.NextProblem] ∧
    (OnEvent cyclingApp false (SDL_Event.KEYUP Keycode.RIGHT 0) ⟨1, 2, 1, false⟩).appState =
      ⟨1, 0, 0, false⟩ := by
  have h := (C6_navigation_ignored_in_benchmark_mode cyclingApp false
    (SDL_Event.KEYUP Keycode.RIGHT 0) ⟨1, 2, 1, true⟩).2.2 rfl
    (fun _ h => SDL_Event.noConfusion h)
  exact ⟨h.1, by decide, by decide⟩

/-! ## Theorems: the process -/

theorem Init_false_iff (env : Startup) :
    (Init env).1 = false ↔ (env.sdlInit < 0 ∨ env.timerInit = false) := by
  unfold Init InitSDL
  by_cases h : env.sdlInit ≥ 0
  · cases ht : env.timerInit <;> simp [h, ht]
  · simp [h]
    omega

theorem Init_steps (env : Startup) :
    MainCall.newApplicationState ∉ (Init env).2 ∧ MainCall.Render ∉ (Init env).2 := by
  unfold Init consoleError
  split
  · simp
  · split <;> simp

theorem mainLoop_ends (benchmarkMode : Bool) (script : List Iteration)
    (h : ∃ it ∈ script, it.ends benchmarkMode = true) :
    ∀ (shouldQuit : Bool) (steps : List MainCall),
      ∃ out, mainLoop benchmarkMode shouldQuit script steps = some out := by
  induction script with
  | nil => simp at h
  | cons it rest ih =>
    intro shouldQuit steps
    cases shouldQuit with
    | true => exact ⟨steps, by simp [mainLoop]⟩
    | false =>
      by_cases hc : (benchmarkMode && it.benchmarkComplete) = true
      · exact ⟨steps, by simp [mainLoop, hc]⟩
      · cases hp : it.polled with
        | none =>
          have hrest : ∃ it2 ∈ rest, it2.ends benchmarkMode = true := by
            obtain ⟨it2, hmem, hends⟩ := h
            rcases List.mem_cons.mp hmem with heq | hin
            · subst heq
              simp [Iteration.ends, hp] at hends
              simp [hends] at hc
            · exact ⟨it2, hin, hends⟩
          obtain ⟨out, hout⟩ := ih hrest false (steps ++ [MainCall.Update, MainCall.Render])
          exact ⟨out, by simp [mainLoop, hc, hp, hout]⟩
        | some ev =>
          by_cases hq : ev = SDL_Event.QUIT
          · subst hq
            refine ⟨steps ++ [MainCall.OnEvent SDL_Event.QUIT], ?_⟩
            simp only [mainLoop, hc, hp]
            cases rest <;> simp [mainLoop]
          · have hrest : ∃ it2 ∈ rest, it2.ends benchmarkMode = true := by
              obtain ⟨it2, hmem, hends⟩ := h
              rcases List.mem_cons.mp hmem with heq | hin
              · subst heq
                simp [Iteration.ends, hp, hq] at hends
                simp [hends] at hc
              · exact ⟨it2, hin, hends⟩
            obtain ⟨out, hout⟩ := ih hrest (false || ev == SDL_Event.QUIT)
              (steps ++ [MainCall.OnEvent ev])
            exact ⟨out, by simp only [mainLoop, hc, hp]; simpa using hout⟩

/-- C8: `Init` fails exactly when SDL initialisation fails or `timer::Init` fails; a code
that `main` returns is non-zero exactly when `Init` failed; when `Init` fails `main` returns
-1 whatever the script, the application state not created and nothing rendered; and when
`Init` succeeds and some iteration of the script polls a quit event or finds the benchmark
complete, `main` returns 0. -/
theorem C8_main_exit_code (env : Startup) (script : List Iteration) :
    ((Init env).1 = false ↔ (env.sdlInit < 0 ∨ env.timerInit = false)) ∧
    (∀ code steps, main env script = some (code, steps) →
      (code ≠ 0 ↔ (Init env).1 = false)) ∧
    ((Init env).1 = false → ∃ steps, main env script = some (-1, steps) ∧
      MainCall.newApplicationState ∉ steps ∧ MainCall.Render ∉ steps) ∧
    ((Init env).1 = true → (∃ it ∈ script, it.ends env.benchmarkMode = true) →
      ∃ steps, main env script = some (0, steps)) := by
  refine ⟨Init_false_iff env, ?_, ?_, ?_⟩
  · intro code steps hmain
    cases hi : (Init env).1 with
    | false =>
      simp [main, hi] at hmain
      simp [← hmain.1]
    | true =>
      simp only [main, hi, Bool.not_true, Bool.false_eq_true, ↓reduceIte] at hmain
      split at hmain
      · simp at hmain
      · simp at hmain
        simp [← hmain.1]
  · intro hi
    refine ⟨(if env.argc = 0 then consoleError [] else []) ++
      [MainCall.ProcessCommandLine] ++ (Init env).2, by simp [main, hi], ?_, ?_⟩
    · have := (Init_steps env).1
      split <;> simp [this, consoleError]
    · have := (Init_steps env).2
      split <;> simp [this, consoleError]
  · intro hi hends
    simp only [main, hi, Bool.not_true, Bool.false_eq_true, ↓reduceIte]
    obtain ⟨out, hout⟩ := mainLoop_ends env.benchmarkMode script hends false
      ((if env.argc = 0 then consoleError [] else []) ++
        [MainCall.ProcessCommandLine] ++ (Init env).2 ++
        [MainCall.timerRead, MainCall.newApplicationState])
    rw [hout]
    exact ⟨_, rfl⟩

/-- C8 on two runs: with `SDL_Init` returning -1 `main` returns -1 after the error report,
whatever the script; with both initialisations succeeding, a frame and then a quit event,
`main` returns 0. -/
theorem C8_main_exit_code_check :
    main ⟨1, -1, true, false⟩ [] = some (-1, [MainCall.ProcessCommandLine, MainCall.chdir,
      MainCall.SDL_Init, MainCall.consoleError]) ∧
    main ⟨1, 0, true, false⟩ [⟨false, none⟩, ⟨false, some SDL_Event.QUIT⟩] =
      some (0, [MainCall.ProcessCommandLine, MainCall.chdir, MainCall.SDL_Init,
        MainCall.timerInit, MainCall.timerRead, MainCall.newApplicationState, MainCall.Update,
        MainCall.Render, MainCall.OnEvent SDL_Event.QUIT, MainCall.SafeDelete,
        MainCall.Cleanup]) ∧
    main ⟨1, 0, true, false⟩ [⟨false, none⟩] = none ∧
    ((Init ⟨1, -1, true, false⟩).1 = false ↔ ((-1 : Int) < 0 ∨ true = false)) :=
  ⟨by decide, by decide, by decide,
    (C8_main_exit_code ⟨1, -1, true, false⟩ []).1⟩

/-! ## Theorems: frames -/

@[simp] theorem log_trace (w : World) (c : Call) : (w.log c).trace = w.trace ++ [c] := rfl

theorem ensureQuery_trace (w : World) :
    (ensureQuery w).trace = w.trace ++
      (if w.queryName = 0 then [Call.glGenQueries (w.gl.generated + 1)] else []) := by
  unfold ensureQuery
  split <;> simp [World.log, GLQueries.glGenQueries]

theorem query_result (gl : GLQueries) (name nanos : Nat) :
    (((gl.glBeginQuery name).submit nanos).glEndQuery).glGetQueryObjectuiv name =
      nanos % 2 ^ 32 := by
  simp [GLQueries.glBeginQuery, GLQueries.submit, GLQueries.glEndQuery,
    GLQueries.glGetQueryObjectuiv, List.lookup]

theorem timedSection_trace (inp : FrameInput) (w : World) :
    (timedSection inp w).trace = w.trace ++
      [Call.timerRead inp.read1, Call.glBeginQuery w.queryName, Call.problemRender,
        Call.glEndQuery, Call.glGetQueryObjectuiv w.queryName (inp.gpuNanos % 2 ^ 32),
        Call.timerRead inp.read2, Call.timerRead inp.read3] := by
  simp [timedSection, World.log, query_result]

theorem timedSection_fields (inp : FrameInput) (w : World) :
    (timedSection inp w).gpuTime = inp.gpuNanos % 2 ^ 32 ∧
    (timedSection inp w).gpuTotal = (w.gpuTotal + inp.gpuNanos % 2 ^ 32) % 2 ^ 32 ∧
    (timedSection inp w).frames = w.frames + 1 ∧
    (timedSection inp w).cpuTotal = (w.cpuTotal + sub64 inp.read2 inp.read1) % 2 ^ 64 ∧
    (timedSection inp w).now = inp.read3 ∧
    (timedSection inp w).updateCounterStart = w.updateCounterStart ∧
    (timedSection inp w).queryName = w.queryName := by
  simp [timedSection, World.log, query_result]

theorem liveSummary_trace (timer : Timer) (w : World) :
    (liveSummary timer w).trace = w.trace ++
      (if timer.ToSec (sub64 w.now w.updateCounterStart) > 1 then [summaryCall timer w]
        else []) := by
  unfold liveSummary
  split <;> simp [World.log, summaryCall]

theorem liveSummary_fields (timer : Timer) (w : World) :
    (liveSummary timer w).gpuTime = w.gpuTime ∧
    (liveSummary timer w).queryName = w.queryName ∧
    (liveSummary timer w).gpuTotal =
      (if timer.ToSec (sub64 w.now w.updateCounterStart) > 1 then 0 else w.gpuTotal) ∧
    (liveSummary timer w).cpuTotal =
      (if timer.ToSec (sub64 w.now w.updateCounterStart) > 1 then 0 else w.cpuTotal) ∧
    (liveSummary timer w).frames =
      (if timer.ToSec (sub64 w.now w.updateCounterStart) > 1 then 0 else w.frames) ∧
    (liveSummary timer w).updateCounterStart =
      (if timer.ToSec (sub64 w.now w.updateCounterStart) > 1 then w.now
        else w.updateCounterStart) := by
  unfold liveSummary
  split <;> simp [World.log]

theorem Render_some (timer : Timer) (p : Problem) (api : GfxBaseApi) (inp : FrameInput)
    (w : World) :
    Render timer (some p) (some api) inp w =
      some ((liveSummary timer (timedWorld p inp w)).log Call.SwapBuffers) := rfl

theorem timedWorld_trace (p : Problem) (inp : FrameInput) (w : World) :
    (timedWorld p inp w).trace = w.trace ++
      ([Call.GetClearValues, Call.Clear (p.GetClearValues (⟨0, 0, 0, 1⟩, 1)).1
          (p.GetClearValues (⟨0, 0, 0, 1⟩, 1)).2] ++
        (if w.queryName = 0 then [Call.glGenQueries (w.gl.generated + 1)] else []) ++
        [Call.timerRead inp.read1, Call.glBeginQuery (timedWorld p inp w).queryName,
          Call.problemRender, Call.glEndQuery,
          Call.glGetQueryObjectuiv (timedWorld p inp w).queryName (inp.gpuNanos % 2 ^ 32),
          Call.timerRead inp.read2, Call.timerRead inp.read3]) := by
  simp [timedWorld, timedSection_trace, ensureQuery_trace, (timedSection_fields _ _).2.2.2.2.2.2,
    World.log]

theorem renderCalls_eq (timer : Timer) (p : Problem) (api : GfxBaseApi) (inp : FrameInput)
    (w : World) :
    renderCalls timer (some p) (some api) inp w =
      [Call.GetClearValues, Call.Clear (p.GetClearValues (⟨0, 0, 0, 1⟩, 1)).1
          (p.GetClearValues (⟨0, 0, 0, 1⟩, 1)).2] ++
        (if w.queryName = 0 then [Call.glGenQueries (w.gl.generated + 1)] else []) ++
        [Call.timerRead inp.read1, Call.glBeginQuery (timedWorld p inp w).queryName,
          Call.problemRender, Call.glEndQuery,
          Call.glGetQueryObjectuiv (timedWorld p inp w).queryName (inp.gpuNanos % 2 ^ 32),
          Call.timerRead inp.read2, Call.timerRead inp.read3] ++
        (if timer.ToSec (sub64 (timedWorld p inp w).now (timedWorld p inp w).updateCounterStart)
            > 1 then [summaryCall timer (timedWorld p inp w)] else []) ++
        [Call.SwapBuffers] := by
  simp only [renderCalls, Render_some, callsBetween, log_trace, liveSummary_trace,
    timedWorld_trace, List.append_assoc, List.drop_left]

/-- C5, as the code has it: a call of `Render` with a problem and an API returns, and
among its calls there is exactly one `Clear`, one problem `Render` and one `SwapBuffers`;
the problem `Render` is the only call between the frame's `glBeginQuery` and its
`glEndQuery`, the `Clear` comes before that `glBeginQuery` and the `SwapBuffers` after
that `glEndQuery`. -/
theorem C5_render_call_trace (timer : Timer) (p : Problem) (api : GfxBaseApi)
    (inp : FrameInput) (w : World) :
    (Render timer (some p) (some api) inp w).isSome = true ∧
    ((renderCalls timer (some p) (some api) inp w).filter Call.isClear).length = 1 ∧
    (renderCalls timer (some p) (some api) inp w).count Call.problemRender = 1 ∧
    (renderCalls timer (some p) (some api) inp w).count Call.SwapBuffers = 1 ∧
    bracketed (renderCalls timer (some p) (some api) inp w) = [Call.problemRender] ∧
    ∃ pre q post, renderCalls timer (some p) (some api) inp w =
        pre ++ [Call.glBeginQuery q, Call.problemRender, Call.glEndQuery] ++ post ∧
      (∃ c ∈ pre, c.isClear = true) ∧ (∀ c ∈ pre, c.isBeginQuery = false) ∧
      Call.SwapBuffers ∈ post := by
  refine ⟨by simp [Render_some], ?_, ?_, ?_, ?_, ?_⟩
  · rw [renderCalls_eq]
    by_cases hq : w.queryName = 0 <;>
      by_cases hs : timer.ToSec (sub64 (timedWorld p inp w).now
        (timedWorld p inp w).updateCounterStart) > 1 <;>
      simp [hq, hs, Call.isClear, summaryCall, List.filter_cons]
  · rw [renderCalls_eq]
    by_cases hq : w.queryName = 0 <;>
      by_cases hs : timer.ToSec (sub64 (timedWorld p inp w).now
        (timedWorld p inp w).updateCounterStart) > 1 <;>
      simp [hq, hs, summaryCall, List.count_cons]
  · rw [renderCalls_eq]
    by_cases hq : w.queryName = 0 <;>
      by_cases hs : timer.ToSec (sub64 (timedWorld p inp w).now
        (timedWorld p inp w).updateCounterStart) > 1 <;>
      simp [hq, hs, summaryCall, List.count_cons]
  · rw [renderCalls_eq]
    by_cases hq : w.queryName = 0 <;>
      simp [hq, bracketed, Call.isBeginQuery, List.dropWhile, List.takeWhile]
  · rw [renderCalls_eq]
    refine ⟨[Call.GetClearValues, Call.Clear (p.GetClearValues (⟨0, 0, 0, 1⟩, 1)).1
          (p.GetClearValues (⟨0, 0, 0, 1⟩, 1)).2] ++
        (if w.queryName = 0 then [Call.glGenQueries (w.gl.generated + 1)] else []) ++
        [Call.timerRead inp.read1], (timedWorld p inp w).queryName,
      [Call.glGetQueryObjectuiv (timedWorld p inp w).queryName (inp.gpuNanos % 2 ^ 32),
          Call.timerRead inp.read2, Call.timerRead inp.read3] ++
        (if timer.ToSec (sub64 (timedWorld p inp w).now (timedWorld p inp w).updateCounterStart)
            > 1 then [summaryCall timer (timedWorld p inp w)] else []) ++
        [Call.SwapBuffers], by simp, ?_, ?_, by simp⟩
    · exact ⟨Call.Clear (p.GetClearValues (⟨0, 0, 0, 1⟩, 1)).1
        (p.GetClearValues (⟨0, 0, 0, 1⟩, 1)).2, by simp, rfl⟩
    · by_cases hq : w.queryName = 0 <;> simp [hq, Call.isBeginQuery]

/-- C5, as the claim has it, fails on the first frame after start-up: `Clear` and
`SwapBuffers` are not among the calls between `glBeginQuery` and `glEndQuery`. -/
theorem C5_clear_and_swap_outside_query :
    renderCalls milliTimer (some plainProblem) (some glApi) firstFrame (startWorld 0) =
      [Call.GetClearValues, Call.Clear ⟨0, 0, 0, 1⟩ 1, Call.glGenQueries 1, Call.timerRead 10,
        Call.glBeginQuery 1, Call.problemRender, Call.glEndQuery,
        Call.glGetQueryObjectuiv 1 5000, Call.timerRead 12, Call.timerRead 13,
        Call.SwapBuffers] ∧
    ¬ (Call.Clear ⟨0, 0, 0, 1⟩ 1 ∈
      bracketed (renderCalls milliTimer (some plainProblem) (some glApi) firstFrame
        (startWorld 0))) ∧
    ¬ (Call.SwapBuffers ∈
      bracketed (renderCalls milliTimer (some plainProblem) (some glApi) firstFrame
        (startWorld 0))) := by
  decide!

theorem renderFrames_some (timer : Timer) (p : Problem) (api : GfxBaseApi)
    (fs : List FrameInput) :
    ∀ w : World, ∃ w1, renderFrames timer (some p) (some api) fs w = some w1 := by
  induction fs with
  | nil => exact fun w => ⟨w, rfl⟩
  | cons f rest ih =>
    intro w
    obtain ⟨w1, h1⟩ := ih ((liveSummary timer (timedWorld p f w)).log Call.SwapBuffers)
    exact ⟨w1, by simp only [renderFrames, Render_some]; exact h1⟩

theorem timedWorld_fields (p : Problem) (inp : FrameInput) (w : World) :
    (timedWorld p inp w).gpuTime = inp.gpuNanos % 2 ^ 32 ∧
    (timedWorld p inp w).gpuTotal = (w.gpuTotal + inp.gpuNanos % 2 ^ 32) % 2 ^ 32 ∧
    (timedWorld p inp w).frames = w.frames + 1 ∧
    (timedWorld p inp w).cpuTotal = (w.cpuTotal + sub64 inp.read2 inp.read1) % 2 ^ 64 ∧
    (timedWorld p inp w).now = inp.read3 ∧
    (timedWorld p inp w).updateCounterStart = w.updateCounterStart := by
  have h := timedSection_fields inp (ensureQuery ((w.log Call.GetClearValues).log
    (Call.Clear (p.GetClearValues (⟨0, 0, 0, 1⟩, 1)).1 (p.GetClearValues (⟨0, 0, 0, 1⟩, 1)).2)))
  have he : ∀ v : World, (ensureQuery v).gpuTotal = v.gpuTotal ∧
      (ensureQuery v).frames = v.frames ∧ (ensureQuery v).cpuTotal = v.cpuTotal ∧
      (ensureQuery v).updateCounterStart = v.updateCounterStart := by
    intro v
    unfold ensureQuery
    split <;> simp [World.log]
  obtain ⟨h1, h2, h3, h4, h5, h6, _⟩ := h
  obtain ⟨e1, e2, e3, e4⟩ := he ((w.log Call.GetClearValues).log
    (Call.Clear (p.GetClearValues (⟨0, 0, 0, 1⟩, 1)).1 (p.GetClearValues (⟨0, 0, 0, 1⟩, 1)).2))
  refine ⟨h1, ?_, ?_, ?_, h5, ?_⟩
  · rw [timedWorld, h2, e1]; rfl
  · rw [timedWorld, h3, e2]; rfl
  · rw [timedWorld, h4, e3]; rfl
  · rw [timedWorld, h6, e4]; rfl

/-- C4, as the code has it: in every sequence of calls of `Render` with a problem and an
API, each call returns, and the GPU time it obtains is the time of the commands it
submitted itself between its own `glBeginQuery` and `glEndQuery` (as a `GLuint`), read from
the same query object right after `glEndQuery`; that value is what the call adds to
`gpuTotal`. This holds for the first call as for every other. -/
theorem C4_gpu_time_of_same_frame (timer : Timer) (p : Problem) (api : GfxBaseApi)
    (start : Nat) (earlier : List FrameInput) (inp : FrameInput) :
    ∃ w w1, renderFrames timer (some p) (some api) earlier (startWorld start) = some w ∧
      Render timer (some p) (some api) inp w = some w1 ∧
      w1.gpuTime = inp.gpuNanos % 2 ^ 32 ∧
      (timedWorld p inp w).gpuTotal = (w.gpuTotal + inp.gpuNanos % 2 ^ 32) % 2 ^ 32 ∧
      [Call.glBeginQuery w1.queryName, Call.problemRender, Call.glEndQuery,
        Call.glGetQueryObjectuiv w1.queryName (inp.gpuNanos % 2 ^ 32)] <:+:
        renderCalls timer (some p) (some api) inp w := by
  obtain ⟨w, hw⟩ := renderFrames_some timer p api earlier (startWorld start)
  refine ⟨w, _, hw, Render_some timer p api inp w, ?_, (timedWorld_fields p inp w).2.1, ?_⟩
  · simp [(liveSummary_fields timer (timedWorld p inp w)).1, (timedWorld_fields p inp w).1,
      World.log]
  · rw [renderCalls_eq]
    have hq : ((liveSummary timer (timedWorld p inp w)).log Call.SwapBuffers).queryName =
        (timedWorld p inp w).queryName := by
      simp [(liveSummary_fields timer (timedWorld p inp w)).2.1, World.log]
    rw [hq]
    refine ⟨[Call.GetClearValues, Call.Clear (p.GetClearValues (⟨0, 0, 0, 1⟩, 1)).1
          (p.GetClearValues (⟨0, 0, 0, 1⟩, 1)).2] ++
        (if w.queryName = 0 then [Call.glGenQueries (w.gl.generated + 1)] else []) ++
        [Call.timerRead inp.read1],
      [Call.timerRead inp.read2, Call.timerRead inp.read3] ++
        (if timer.ToSec (sub64 (timedWorld p inp w).now (timedWorld p inp w).updateCounterStart)
            > 1 then [summaryCall timer (timedWorld p inp w)] else []) ++
        [Call.SwapBuffers], by simp⟩

/-- C4, as the claim has it, fails on two frames after start-up: the first call obtains a
result, the 5000 ns of its own query, and the second call obtains the 7000 ns of the query
it has just ended, not the 5000 ns of the query of the call before. -/
theorem C4_reads_query_of_same_call :
    (renderFrames milliTimer (some plainProblem) (some glApi) [firstFrame]
      (startWorld 0)).map World.gpuTime = some 5000 ∧
    (renderFrames milliTimer (some plainProblem) (some glApi) [firstFrame]
      (startWorld 0)).map World.gpuTotal = some 5000 ∧
    (renderFrames milliTimer (some plainProblem) (some glApi) [firstFrame, secondFrame]
      (startWorld 0)).map World.gpuTime = some 7000 ∧
    (renderFrames milliTimer (some plainProblem) (some glApi) [firstFrame, secondFrame]
      (startWorld 0)).map World.gpuTotal = some 12000 ∧
    (renderFrames milliTimer (some plainProblem) (some glApi) [firstFrame, secondFrame]
      (startWorld 0)).map World.trace =
      some [Call.GetClearValues, Call.Clear ⟨0, 0, 0, 1⟩ 1, Call.glGenQueries 1,
        Call.timerRead 10, Call.glBeginQuery 1, Call.problemRender, Call.glEndQuery,
        Call.glGetQueryObjectuiv 1 5000, Call.timerRead 12, Call.timerRead 13,
        Call.SwapBuffers,
        Call.GetClearValues, Call.Clear ⟨0, 0, 0, 1⟩ 1,
        Call.timerRead 20, Call.glBeginQuery 1, Call.problemRender, Call.glEndQuery,
        Call.glGetQueryObjectuiv 1 7000, Call.timerRead 23, Call.timerRead 24,
        Call.SwapBuffers] := by
  decide!

theorem sub64_of_le (a b : Nat) (hab : b ≤ a) (ha : a < 2 ^ 64) : sub64 a b = a - b := by
  unfold sub64
  have hb : b % 2 ^ 64 = b := Nat.mod_eq_of_lt (lt_of_le_of_lt hab ha)
  rw [hb]
  omega

theorem Agrees_step (timer : Timer) (p : Problem) (f : FrameInput) (w : World)
    (win : SummaryWindow) (h : Agrees w win) (hle : win.since ≤ f.read3)
    (hlt : f.read3 < 2 ^ 64) :
    Agrees ((liveSummary timer (timedWorld p f w)).log Call.SwapBuffers)
      (win.step timer f) := by
  obtain ⟨h1, h2, h3, h4⟩ := h
  obtain ⟨_, t2, t3, t4, t5, t6⟩ := timedWorld_fields p f w
  obtain ⟨_, _, l3, l4, l5, l6⟩ := liveSummary_fields timer (timedWorld p f w)
  have hsub : sub64 (timedWorld p f w).now (timedWorld p f w).updateCounterStart =
      f.read3 - win.since := by
    rw [t5, t6, h1]
    exact sub64_of_le _ _ hle hlt
  rw [hsub] at l3 l4 l5 l6
  unfold SummaryWindow.step Agrees
  by_cases hc : timer.ToSec (f.read3 - win.since) > 1
  · simp only [hc, if_true] at l3 l4 l5 l6 ⊢
    refine ⟨?_, ?_, ?_, ?_⟩
    · show (liveSummary timer (timedWorld p f w)).updateCounterStart = _
      rw [l6, t5]
    · show (liveSummary timer (timedWorld p f w)).frames = _
      rw [l5]; rfl
    · show (liveSummary timer (timedWorld p f w)).cpuTotal = _
      rw [l4]; rfl
    · show (liveSummary timer (timedWorld p f w)).gpuTotal = _
      rw [l3]; rfl
  · simp only [hc, if_false] at l3 l4 l5 l6 ⊢
    refine ⟨?_, ?_, ?_, ?_⟩
    · show (liveSummary timer (timedWorld p f w)).updateCounterStart = _
      rw [l6, t6, h1]
    · show (liveSummary timer (timedWorld p f w)).frames = _
      rw [l5, t3, h2]
      simp
    · show (liveSummary timer (timedWorld p f w)).cpuTotal = _
      rw [l4, t4, h3]
      simp [FrameInput.cpuTicks, Nat.add_mod]
    · show (liveSummary timer (timedWorld p f w)).gpuTotal = _
      rw [l3, t2, h4]
      simp [FrameInput.gpuTime, Nat.add_mod]

theorem step_since (timer : Timer) (win : SummaryWindow) (f : FrameInput) :
    (win.step timer f).since = win.since ∨ (win.step timer f).since = f.read3 := by
  unfold SummaryWindow.step
  split <;> simp

theorem foldl_step_since (timer : Timer) (fs : List FrameInput) :
    ∀ win : SummaryWindow, (fs.foldl (SummaryWindow.step timer) win).since ∈
      win.since :: fs.map FrameInput.read3 := by
  induction fs with
  | nil => intro win; simp
  | cons f rest ih =>
    intro win
    have h := ih (win.step timer f)
    simp only [List.foldl_cons, List.map_cons, List.mem_cons] at h ⊢
    rcases h with h | h
    · rcases step_since timer win f with hs | hs
      · exact Or.inl (h.trans hs)
      · exact Or.inr (Or.inl (h.trans hs))
    · exact Or.inr (Or.inr h)

theorem Agrees_run (timer : Timer) (p : Problem) (api : GfxBaseApi) (fs : List FrameInput) :
    ∀ (w : World) (win : SummaryWindow), Agrees w win →
      List.Pairwise (· ≤ ·) (win.since :: fs.map FrameInput.read3) →
      (∀ f ∈ fs, f.read3 < 2 ^ 64) →
      ∃ w1, renderFrames timer (some p) (some api) fs w = some w1 ∧
        Agrees w1 (fs.foldl (SummaryWindow.step timer) win) := by
  induction fs with
  | nil => exact fun w win h _ _ => ⟨w, rfl, h⟩
  | cons f rest ih =>
    intro w win h hmono hbound
    simp only [List.map_cons, List.pairwise_cons, List.mem_cons] at hmono
    obtain ⟨hhead, htail, hrest⟩ := hmono
    have hle : win.since ≤ f.read3 := hhead _ (Or.inl rfl)
    have hstep := Agrees_step timer p f w win h hle (hbound f (List.mem_cons_self _ _))
    have hmono2 : List.Pairwise (· ≤ ·)
        ((win.step timer f).since :: rest.map FrameInput.read3) := by
      rw [List.pairwise_cons]
      refine ⟨?_, hrest⟩
      intro x hx
      rcases step_since timer win f with hs | hs
      · rw [hs]; exact hhead _ (Or.inr hx)
      · rw [hs]; exact htail _ hx
    obtain ⟨w1, hw1, hag⟩ := ih _ _ hstep hmono2
      (fun g hg => hbound g (List.mem_cons_of_mem _ hg))
    exact ⟨w1, by simp only [renderFrames, Render_some]; exact hw1, hag⟩

theorem startWorld_agrees (start : Nat) : Agrees (startWorld start) ⟨start, []⟩ := by
  simp [Agrees, startWorld]

theorem summaryCall_eq (timer : Timer) (p : Problem) (f : FrameInput) (w : World)
    (win : SummaryWindow) (h : Agrees w win) :
    summaryCall timer (timedWorld p f w) = averagesOver timer (win.rendered ++ [f]) := by
  obtain ⟨_, h2, h3, h4⟩ := h
  obtain ⟨_, t2, t3, t4, _, _⟩ := timedWorld_fields p f w
  have hn : ((win.rendered.length : ℚ) + 1) ≠ 0 := by positivity
  unfold summaryCall averagesOver
  rw [t2, t3, t4, h2, h3, h4]
  simp [fdiv, hn, FrameInput.cpuTicks, FrameInput.gpuTime, Nat.add_mod]

/-- C9: over every sequence of calls of `Render` (with a problem and an API) from the state
`main` sets up, with timer readings that do not decrease, every call returns; before a call,
`updateCounterStart` is the reading at the previous summary (or at start-up); the call
prints a summary line if and only if `timer::ToSec` of the time passed since then exceeds 1,
and then it prints exactly one, whose averages are taken over the frames rendered since
the previous summary, this frame included, at least one frame; after printing, `frames`,
`cpuTotal` and `gpuTotal` are 0 and `updateCounterStart` is the current reading. -/
theorem C9_live_summary (timer : Timer) (p : Problem) (api : GfxBaseApi) (start : Nat)
    (earlier : List FrameInput) (inp : FrameInput)
    (hmono : List.Pairwise (· ≤ ·) (start :: (earlier ++ [inp]).map FrameInput.read3))
    (hbound : ∀ f ∈ earlier ++ [inp], f.read3 < 2 ^ 64) :
    ∃ w w1, renderFrames timer (some p) (some api) earlier (startWorld start) = some w ∧
      Render timer (some p) (some api) inp w = some w1 ∧
      w.updateCounterStart = (summaryWindow timer start earlier).since ∧
      (renderCalls timer (some p) (some api) inp w).filter Call.isPrintf =
        (if timer.ToSec (inp.read3 - (summaryWindow timer start earlier).since) > 1 then
          [averagesOver timer ((summaryWindow timer start earlier).rendered ++ [inp])]
        else []) ∧
      1 ≤ ((summaryWindow timer start earlier).rendered ++ [inp]).length ∧
      (timer.ToSec (inp.read3 - (summaryWindow timer start earlier).since) > 1 →
        w1.frames = 0 ∧ w1.cpuTotal = 0 ∧ w1.gpuTotal = 0 ∧
          w1.updateCounterStart = inp.read3) := by
  have hmono1 : List.Pairwise (· ≤ ·) (start :: earlier.map FrameInput.read3) := by
    refine hmono.sublist (List.Sublist.cons₂ _ ?_)
    rw [List.map_append]
    exact List.sublist_append_left _ _
  obtain ⟨w, hw, hag0⟩ := Agrees_run timer p api earlier (startWorld start) ⟨start, []⟩
    (startWorld_agrees start) hmono1 (fun f hf => hbound f (List.mem_append_left _ hf))
  have hag : Agrees w (summaryWindow timer start earlier) := hag0
  have hle : (summaryWindow timer start earlier).since ≤ inp.read3 := by
    have hmem := foldl_step_since timer earlier ⟨start, []⟩
    have hp : List.Pairwise (· ≤ ·)
        ((start :: earlier.map FrameInput.read3) ++ [inp.read3]) := by
      simpa using hmono
    rw [List.pairwise_append] at hp
    exact hp.2.2 _ hmem _ (List.mem_singleton_self _)
  have hlt : inp.read3 < 2 ^ 64 := hbound inp (by simp)
  have hstep := Agrees_step timer p inp w (summaryWindow timer start earlier) hag hle hlt
  obtain ⟨_, _, _, _, t5, t6⟩ := timedWorld_fields p inp w
  have hsub : sub64 (timedWorld p inp w).now (timedWorld p inp w).updateCounterStart =
      inp.read3 - (summaryWindow timer start earlier).since := by
    rw [t5, t6, hag.1]
    exact sub64_of_le _ _ hle hlt
  refine ⟨w, _, hw, Render_some timer p api inp w, hag.1, ?_, by simp, ?_⟩
  · rw [renderCalls_eq, hsub,
      summaryCall_eq timer p inp w (summaryWindow timer start earlier) hag]
    by_cases hq : w.queryName = 0 <;>
      by_cases hc : timer.ToSec (inp.read3 - (summaryWindow timer start earlier).since) > 1 <;>
      simp [hq, hc, Call.isPrintf, averagesOver, List.filter_cons]
  · intro hc
    unfold SummaryWindow.step Agrees at hstep
    simp only [hc, if_true] at hstep
    obtain ⟨s1, s2, s3, s4⟩ := hstep
    exact ⟨by simpa using s2, by simpa using s3, by simpa using s4, s1⟩

/-- C9 on three frames with a millisecond timer, started at 0: the frames at 400 ms and
900 ms print nothing, the frame at 1500 ms prints the averages over all three. -/
theorem C9_live_summary_witness :
    ∃ w w1, renderFrames milliTimer (some plainProblem) (some glApi) summaryFrames
        (startWorld 0) = some w ∧
      Render milliTimer (some plainProblem) (some glApi) summaryFrame w = some w1 ∧
      w.updateCounterStart = (summaryWindow milliTimer 0 summaryFrames).since ∧
      (renderCalls milliTimer (some plainProblem) (some glApi) summaryFrame w).filter
          Call.isPrintf =
        (if milliTimer.ToSec (summaryFrame.read3 -
            (summaryWindow milliTimer 0 summaryFrames).since) > 1 then
          [averagesOver milliTimer
            ((summaryWindow milliTimer 0 summaryFrames).rendered ++ [summaryFrame])]
        else []) ∧
      1 ≤ ((summaryWindow milliTimer 0 summaryFrames).rendered ++ [summaryFrame]).length ∧
      (milliTimer.ToSec (summaryFrame.read3 -
          (summaryWindow milliTimer 0 summaryFrames).since) > 1 →
        w1.frames = 0 ∧ w1.cpuTotal = 0 ∧ w1.gpuTotal = 0 ∧
          w1.updateCounterStart = summaryFrame.read3) :=
  C9_live_summary milliTimer plainProblem glApi 0 summaryFrames summaryFrame
    (by decide) (by decide)

/-- The printed line of the witness: 300 CPU ms, 3 GPU ms and 1000 / 3 frames per second. -/
theorem C9_live_summary_values :
    (summaryWindow milliTimer 0 summaryFrames).since = 0 ∧
    milliTimer.ToSec (summaryFrame.read3 - 0) > 1 ∧
    averagesOver milliTimer ((summaryWindow milliTimer 0 summaryFrames).rendered ++
      [summaryFrame]) = Call.printf (some 300) (some 3) (some (1000 / 3)) ∧
    (renderFrames milliTimer (some plainProblem) (some glApi)
      (summaryFrames ++ [summaryFrame]) (startWorld 0)).map
        (fun w => w.trace.filter Call.isPrintf) =
      some [Call.printf (some 300) (some 3) (some (1000 / 3))] := by
  decide!

/-! ## Theorems: the report -/

theorem BechmarkSorter_iff (a b : BenchmarkRow) :
    BechmarkSorter a b = true ↔
      (a.mProblemName < b.mProblemName ∨
        (a.mProblemName = b.mProblemName ∧ a.mGfxApiName < b.mGfxApiName) ∨
        (a.mProblemName = b.mProblemName ∧ a.mGfxApiName = b.mGfxApiName ∧
          a.mMillisecondsPerFrame < b.mMillisecondsPerFrame)) := by
  unfold BechmarkSorter
  rcases lt_trichotomy a.mProblemName b.mProblemName with hp | hp | hp
  · simp [hp]
  · rcases lt_trichotomy a.mGfxApiName b.mGfxApiName with ha | ha | ha
    · simp [hp, ha]
    · simp [hp, ha]
    · simp [hp, ha, lt_asymm ha, ne_of_gt ha]
  · simp [hp, lt_asymm hp, ne_of_gt hp]

theorem BechmarkSorter_asymm (a b : BenchmarkRow) (h : BechmarkSorter a b = true) :
    BechmarkSorter b a = false := by
  rw [Bool.eq_false_iff, Ne, BechmarkSorter_iff]
  rw [BechmarkSorter_iff] at h
  rintro (h2 | ⟨e2, h2⟩ | ⟨e2, f2, h2⟩) <;> rcases h with h1 | ⟨e1, h1⟩ | ⟨e1, f1, h1⟩
  · exact lt_asymm h1 h2
  · rw [e1] at h2; exact lt_irrefl _ h2
  · rw [e1] at h2; exact lt_irrefl _ h2
  · rw [e2] at h1; exact lt_irrefl _ h1
  · exact lt_asymm h1 h2
  · rw [f1] at h2; exact lt_irrefl _ h2
  · rw [e2] at h1; exact lt_irrefl _ h1
  · rw [f2] at h1; exact lt_irrefl _ h1
  · exact lt_asymm h1 h2

theorem BechmarkSorter_trans (a b c : BenchmarkRow) (h1 : BechmarkSorter a b = true)
    (h2 : BechmarkSorter b c = true) : BechmarkSorter a c = true := by
  rw [BechmarkSorter_iff] at h1 h2 ⊢
  rcases h1 with h1 | ⟨e1, h1⟩ | ⟨e1, f1, h1⟩ <;> rcases h2 with h2 | ⟨e2, h2⟩ | ⟨e2, f2, h2⟩
  · exact Or.inl (lt_trans h1 h2)
  · exact Or.inl (e2 ▸ h1)
  · exact Or.inl (e2 ▸ h1)
  · exact Or.inl (e1 ▸ h2)
  · exact Or.inr (Or.inl ⟨e1.trans e2, lt_trans h1 h2⟩)
  · exact Or.inr (Or.inl ⟨e1.trans e2, f2 ▸ h1⟩)
  · exact Or.inl (e1 ▸ h2)
  · exact Or.inr (Or.inl ⟨e1.trans e2, f1 ▸ h2⟩)
  · exact Or.inr (Or.inr ⟨e1.trans e2, f1.trans f2, lt_trans h1 h2⟩)

theorem sortInsert_perm {α : Type} (comp : α → α → Bool) (x : α) (l : List α) :
    (sortInsert comp x l).Perm (x :: l) := by
  induction l with
  | nil => exact List.Perm.refl _
  | cons y ys ih =>
    unfold sortInsert
    split
    · exact List.Perm.refl _
    · exact (List.Perm.cons y ih).trans (List.Perm.swap x y ys)

theorem foldl_sortInsert_perm {α : Type} (comp : α → α → Bool) (l : List α) :
    ∀ acc : List α, (l.foldl (fun sorted x => sortInsert comp x sorted) acc).Perm (acc ++ l) := by
  induction l with
  | nil => intro acc; simp
  | cons x xs ih =>
    intro acc
    refine (ih (sortInsert comp x acc)).trans ?_
    refine ((sortInsert_perm comp x acc).append_right xs).trans ?_
    exact List.perm_middle.symm

theorem stdSort_perm {α : Type} (comp : α → α → Bool) (l : List α) :
    (stdSort comp l).Perm l := by
  simpa [stdSort] using foldl_sortInsert_perm comp l []

theorem sortInsert_sorted {α : Type} (comp : α → α → Bool)
    (hasymm : ∀ a b, comp a b = true → comp b a = false)
    (htrans : ∀ a b c, comp a b = true → comp b c = true → comp a c = true)
    (x : α) (l : List α) (hl : l.Pairwise (fun earlier later => comp later earlier = false)) :
    (sortInsert comp x l).Pairwise (fun earlier later => comp later earlier = false) := by
  induction l with
  | nil => simp [sortInsert]
  | cons y ys ih =>
    rw [List.pairwise_cons] at hl
    unfold sortInsert
    split
    · rename_i hxy
      refine List.Pairwise.cons ?_ (List.Pairwise.cons hl.1 hl.2)
      intro z hz
      rcases List.mem_cons.mp hz with rfl | hz
      · exact hasymm _ _ hxy
      · by_contra hzx
        have hzy := htrans z x y (by simpa using hzx) hxy
        rw [hl.1 z hz] at hzy
        exact Bool.false_ne_true hzy
    · rename_i hxy
      refine List.Pairwise.cons ?_ (ih hl.2)
      intro z hz
      rcases List.mem_cons.mp ((sortInsert_perm comp x ys).subset hz) with rfl | hz
      · simpa using hxy
      · exact hl.1 z hz

theorem stdSort_sorted {α : Type} (comp : α → α → Bool)
    (hasymm : ∀ a b, comp a b = true → comp b a = false)
    (htrans : ∀ a b c, comp a b = true → comp b c = true → comp a c = true)
    (l : List α) :
    (stdSort comp l).Pairwise (fun earlier later => comp later earlier = false) := by
  have key : ∀ (xs acc : List α),
      acc.Pairwise (fun earlier later => comp later earlier = false) →
      (xs.foldl (fun sorted x => sortInsert comp x sorted) acc).Pairwise
        (fun earlier later => comp later earlier = false) := by
    intro xs
    induction xs with
    | nil => exact fun acc h => h
    | cons x xs ih =>
      exact fun acc h => ih _ (sortInsert_sorted comp hasymm htrans x acc h)
  exact key l [] List.Pairwise.nil

theorem foldl_accumulateStep (l : BenchmarkResults) :
    ∀ rows : List BenchmarkRow,
      l.foldl accumulateStep rows = rows ++ (l.filter measured).map rowOf := by
  induction l with
  | nil => intro rows; simp
  | cons e es ih =>
    intro rows
    rw [List.foldl_cons, ih]
    by_cases hm : measured e = true
    · have hs : accumulateStep rows e = rows ++ [rowOf e] := by
        unfold measured at hm
        simp only [accumulateStep, hm, if_true, rowOf]
      simp [hs, hm]
    · have hs : accumulateStep rows e = rows := by
        unfold measured at hm
        simp [accumulateStep, hm]
      simp [hs, hm]

theorem accumulateRows_eq (store : BenchmarkResults) :
    accumulateRows store = (store.filter measured).map rowOf := by
  simp [accumulateRows, foldl_accumulateStep]

theorem sortedRows_perm (store : BenchmarkResults) :
    (sortedRows store).Perm ((store.filter measured).map rowOf) := by
  unfold sortedRows
  rw [← accumulateRows_eq]
  exact stdSort_perm _ _

theorem sortedRows_sorted (store : BenchmarkResults) :
    (sortedRows store).Pairwise
      (fun earlier later => BechmarkSorter later earlier = false) :=
  stdSort_sorted BechmarkSorter BechmarkSorter_asymm BechmarkSorter_trans _

theorem sortedRows_measured (store : BenchmarkResults) (row : BenchmarkRow)
    (h : row ∈ sortedRows store) : ∃ e ∈ store, measured e = true ∧ row = rowOf e := by
  have h2 := (sortedRows_perm store).subset h
  simp only [List.mem_map, List.mem_filter] at h2
  obtain ⟨e, ⟨he, hm⟩, hr⟩ := h2
  exact ⟨e, he, hm, hr.symm⟩

theorem foldl_append_eq_join (l : List String) :
    ∀ init : String, l.foldl (fun r s => r ++ s) init = init ++ String.join l := by
  induction l with
  | nil => intro init; simp [String.join]
  | cons a l ih =>
    intro init
    simp only [List.foldl_cons, String.join]
    rw [ih, ih ("" ++ a)]
    simp [String.append_assoc]

theorem asTable_eq (store : BenchmarkResults) :
    asTable store = headerLine ++ String.join (dataLines store) := by
  unfold asTable dataLines
  rw [← foldl_append_eq_join, List.foldl_map, String.empty_append]

theorem rowLine_measured (e : BenchmarkEntry) (hm : measured e = true) :
    rowLine (rowOf e) = snprintf 1024 (kRowFmt e.1.2.1 e.1.1 e.1.2.2 e.2.1 e.2.2.1
      ((e.2.1 : ℚ) / e.2.2.1) (e.2.2.1 * 1000 / (e.2.1 : ℚ))) := by
  unfold measured at hm
  simp only [rowLine, rowOf, hm, if_true]

/-- C2, as the code has it: for two rows `A` and `B` at the places `i` and `j` of the report,
`BechmarkSorter(A, B)` holds exactly when `A.problem < B.problem`, or the problems are
equal and `A.api < B.api`, or problems and APIs are equal and
`A.msPerFrame < B.msPerFrame`; when it holds, `A` comes before `B`; and when `A` comes
before `B`, `BechmarkSorter(B, A)` does not hold. -/
theorem C2_sort_law (store : BenchmarkResults) (i j : Nat) (A B : BenchmarkRow)
    (hA : (sortedRows store)[i]? = some A) (hB : (sortedRows store)[j]? = some B) :
    (BechmarkSorter A B = true ↔
      (A.mProblemName < B.mProblemName ∨
        (A.mProblemName = B.mProblemName ∧ A.mGfxApiName < B.mGfxApiName) ∨
        (A.mProblemName = B.mProblemName ∧ A.mGfxApiName = B.mGfxApiName ∧
          A.mMillisecondsPerFrame < B.mMillisecondsPerFrame))) ∧
    (BechmarkSorter A B = true → i < j) ∧
    (i < j → BechmarkSorter B A = false) := by
  obtain ⟨hi, rfl⟩ := List.getElem?_eq_some.mp hA
  obtain ⟨hj, rfl⟩ := List.getElem?_eq_some.mp hB
  have hs := List.pairwise_iff_getElem.mp (sortedRows_sorted store)
  refine ⟨BechmarkSorter_iff _ _, ?_, fun hij => hs i j hi hj hij⟩
  intro hAB
  by_contra hnot
  rcases Nat.lt_or_eq_of_le (Nat.le_of_not_lt hnot) with hji | hji
  · have := hs j i hj hi hji
    rw [hAB] at this
    exact Bool.noConfusion this
  · subst hji
    have := BechmarkSorter_asymm _ _ hAB
    rw [hAB] at this
    exact Bool.noConfusion this

/-- C2 on a store of two solutions of different speed: the faster one, stored second,
is the first row of the report. -/
theorem C2_sort_law_witness :
    (BechmarkSorter (rowOf (("GL", "Cubes", "Tuned"), (600, 10, 0)))
        (rowOf (("GL", "Cubes", "Naive"), (600, 20, 0))) = true ↔
      ((rowOf (("GL", "Cubes", "Tuned"), (600, 10, 0))).mProblemName <
          (rowOf (("GL", "Cubes", "Naive"), (600, 20, 0))).mProblemName ∨
        ((rowOf (("GL", "Cubes", "Tuned"), (600, 10, 0))).mProblemName =
            (rowOf (("GL", "Cubes", "Naive"), (600, 20, 0))).mProblemName ∧
          (rowOf (("GL", "Cubes", "Tuned"), (600, 10, 0))).mGfxApiName <
            (rowOf (("GL", "Cubes", "Naive"), (600, 20, 0))).mGfxApiName) ∨
        ((rowOf (("GL", "Cubes", "Tuned"), (600, 10, 0))).mProblemName =
            (rowOf (("GL", "Cubes", "Naive"), (600, 20, 0))).mProblemName ∧
          (rowOf (("GL", "Cubes", "Tuned"), (600, 10, 0))).mGfxApiName =
            (rowOf (("GL", "Cubes", "Naive"), (600, 20, 0))).mGfxApiName ∧
          (rowOf (("GL", "Cubes", "Tuned"), (600, 10, 0))).mMillisecondsPerFrame <
            (rowOf (("GL", "Cubes", "Naive"), (600, 20, 0))).mMillisecondsPerFrame))) ∧
    (BechmarkSorter (rowOf (("GL", "Cubes", "Tuned"), (600, 10, 0)))
        (rowOf (("GL", "Cubes", "Naive"), (600, 20, 0))) = true → 0 < 1) ∧
    (0 < 1 → BechmarkSorter (rowOf (("GL", "Cubes", "Naive"), (600, 20, 0)))
        (rowOf (("GL", "Cubes", "Tuned"), (600, 10, 0))) = false) :=
  C2_sort_law twoStore 0 1 (rowOf (("GL", "Cubes", "Tuned"), (600, 10, 0)))
    (rowOf (("GL", "Cubes", "Naive"), (600, 20, 0))) (by decide!) (by decide!)

/-- C2, as the claim has it, fails on two solutions with the same time per frame: the
report has both rows, one before the other, and `BechmarkSorter` holds in neither
direction, so the row printed first does not satisfy the relation of the law. -/
theorem C2_tie_rows_unordered :
    sortedRows tieStore = [rowOf (("GL", "Cubes", "Fast"), (600, 10, 0)),
      rowOf (("GL", "Cubes", "Quick"), (300, 5, 0))] ∧
    rowOf (("GL", "Cubes", "Fast"), (600, 10, 0)) ≠
      rowOf (("GL", "Cubes", "Quick"), (300, 5, 0)) ∧
    BechmarkSorter (rowOf (("GL", "Cubes", "Fast"), (600, 10, 0)))
      (rowOf (("GL", "Cubes", "Quick"), (300, 5, 0))) = false ∧
    BechmarkSorter (rowOf (("GL", "Cubes", "Quick"), (300, 5, 0)))
      (rowOf (("GL", "Cubes", "Fast"), (600, 10, 0))) = false := by
  decide!

/-- C1 on the scenario: the text of `asTable` is the header line and the row of `Fast`;
there is one data line, and none for `Slow`, whose frame count is 0. -/
theorem C1_degenerate_row_dropped :
    asTable scenarioStore = headerLine ++
      " Cubes                   GL         Fast                               600       10.000       60.000       16.667\n" ∧
    headerLine =
      " Problem                 API        Solution                        Frames  Elapsed (s)          fps         ms/f\n" ∧
    (dataLines scenarioStore).length = 1 ∧
    rowLine ⟨"GL", "Cubes", "Slow", 0, 0, 0, 0, 0, 0⟩ =
      " Cubes                   GL         Slow                               N/A          N/A          N/A          N/A\n" ∧
    rowLine ⟨"GL", "Cubes", "Slow", 0, 0, 0, 0, 0, 0⟩ ∉ dataLines scenarioStore := by
  decide!

theorem fill_length (w : Nat) (s : String) : (fill w s).length = w - s.length := by
  show (List.replicate (w - s.length) ' ').length = w - s.length
  exact List.length_replicate _ _

theorem padRight_length (w : Nat) (s : String) :
    (padRight w s).length = max w s.length := by
  simp only [padRight, String.length_append, fill_length]
  omega

theorem padLeft_length (w : Nat) (s : String) :
    (padLeft w s).length = max w s.length := by
  simp only [padLeft, String.length_append, fill_length]
  omega

theorem snprintf_length (n : Nat) (t : String) :
    (snprintf n t).length = min (n - 1) t.length := by
  show (List.take (n - 1) t.data).length = min (n - 1) t.data.length
  exact List.length_take _ _

theorem snprintf_fits (n : Nat) (t : String) (h : t.length ≤ n - 1) : snprintf n t = t := by
  unfold snprintf
  rw [List.take_of_length_le h]

theorem kRowFmt_length (a b c : String) (d : Nat) (e f g : ℚ) :
    (kRowFmt a b c d e f g).length =
      8 + max 23 a.length + max 10 b.length + max 30 c.length + max 7 (fmtD d).length +
        max 12 (fmtF3 e).length + max 12 (fmtF3 f).length + max 12 (fmtF3 g).length := by
  have h1 : " ".length = 1 := rfl
  have h2 : "\n".length = 1 := rfl
  unfold kRowFmt
  simp only [String.length_append]
  rw [h1, h2, padRight_length, padRight_length, padRight_length, padLeft_length,
    padLeft_length, padLeft_length, padLeft_length]
  omega

theorem headerLine_length : headerLine.length = 114 := by decide

theorem join_cons (a : String) (l : List String) : String.join (a :: l) = a ++ String.join l := by
  simp only [String.join, List.foldl_cons]
  rw [foldl_append_eq_join, String.empty_append]
  rfl

theorem join_append (l1 l2 : List String) :
    String.join (l1 ++ l2) = String.join l1 ++ String.join l2 := by
  induction l1 with
  | nil => simp [String.join]
  | cons a l ih => rw [List.cons_append, join_cons, join_cons, ih, String.append_assoc]

theorem join_of_mem (x : String) (l : List String) (h : x ∈ l) :
    ∃ before after, String.join l = before ++ x ++ after := by
  obtain ⟨s, t, rfl⟩ := List.append_of_mem h
  exact ⟨String.join s, String.join t, by rw [join_append, join_cons, String.append_assoc]⟩

theorem asTable_of_mem (store : BenchmarkResults) (row : BenchmarkRow)
    (h : row ∈ sortedRows store) :
    ∃ before after, asTable store = headerLine ++ before ++ rowLine row ++ after := by
  obtain ⟨before, after, hj⟩ := join_of_mem (rowLine row) (dataLines store)
    (List.mem_map_of_mem _ h)
  exact ⟨before, after, by rw [asTable_eq, hj, String.append_assoc, String.append_assoc,
    String.append_assoc]⟩

theorem rowLine_eq_formatted (store : BenchmarkResults) (row : BenchmarkRow)
    (h : row ∈ sortedRows store) : rowLine row = snprintf 1024 (formatted row) := by
  obtain ⟨e, _, he, hr⟩ := sortedRows_measured store row h
  have hm : (row.mFrameCount != 0 && row.mElapsedS != 0) = true := by
    rw [hr]
    exact he
  simp only [rowLine, hm, if_true, formatted]

theorem ite_ne_newline (c : Prop) [Decidable c] (a b : Char) (ha : a ≠ newline)
    (hb : b ≠ newline) : (if c then a else b) ≠ newline := by
  split <;> assumption

theorem digitChar_ne_newline (k : Nat) : Nat.digitChar k ≠ newline := by
  unfold Nat.digitChar
  repeat (refine ite_ne_newline _ _ _ (by decide) ?_)
  decide

theorem toDigitsCore_newline (fuel : Nat) :
    ∀ (n : Nat) (ds : List Char), newline ∉ ds → newline ∉ Nat.toDigitsCore 10 fuel n ds := by
  induction fuel with
  | zero => exact fun n ds h => h
  | succ fuel ih =>
    intro n ds h
    have hd : newline ∉ Nat.digitChar (n % 10) :: ds := by
      intro hmem
      rcases List.mem_cons.mp hmem with heq | hin
      · exact digitChar_ne_newline _ heq.symm
      · exact h hin
    unfold Nat.toDigitsCore
    simp only
    split
    · exact hd
    · exact ih _ _ hd

theorem noNewline_decimal (n : Nat) : noNewline (decimal n) :=
  toDigitsCore_newline (n + 1) n [] (List.not_mem_nil _)

theorem noNewline_append (a b : String) (ha : noNewline a) (hb : noNewline b) :
    noNewline (a ++ b) := by
  unfold noNewline at *
  rw [String.data_append, List.mem_append]
  exact fun h => h.elim ha hb

theorem noNewline_replicate (k : Nat) (c : Char) (hc : c ≠ newline) :
    noNewline (String.mk (List.replicate k c)) := by
  unfold noNewline
  intro h
  exact hc (List.eq_of_mem_replicate h).symm

theorem noNewline_padRight (w : Nat) (s : String) (h : noNewline s) :
    noNewline (padRight w s) :=
  noNewline_append _ _ h (noNewline_replicate _ _ (by decide))

theorem noNewline_padLeft (w : Nat) (s : String) (h : noNewline s) :
    noNewline (padLeft w s) :=
  noNewline_append _ _ (noNewline_replicate _ _ (by decide)) h

theorem noNewline_fmtD (n : Nat) : noNewline (fmtD n) := by
  unfold fmtD
  split
  · exact noNewline_decimal _
  · exact noNewline_append _ _ (by decide) (noNewline_decimal _)

theorem noNewline_fmtF3 (q : ℚ) : noNewline (fmtF3 q) := by
  unfold fmtF3
  refine noNewline_append _ _ (noNewline_append _ _ (noNewline_append _ _
    (noNewline_append _ _ ?_ (noNewline_decimal _)) (by decide))
    (noNewline_replicate _ _ (by decide))) (noNewline_decimal _)
  split <;> decide

theorem kRowFmt_line (a b c : String) (d : Nat) (e f g : ℚ) (ha : noNewline a)
    (hb : noNewline b) (hc : noNewline c) :
    ∃ body : List Char, (kRowFmt a b c d e f g).data = body ++ [newline] ∧ newline ∉ body := by
  have hsp : noNewline " " := by decide
  refine ⟨(" " ++ padRight 23 a ++ " " ++ padRight 10 b ++ " " ++ padRight 30 c ++ " " ++
    padLeft 7 (fmtD d) ++ " " ++ padLeft 12 (fmtF3 e) ++ " " ++ padLeft 12 (fmtF3 f) ++ " " ++
    padLeft 12 (fmtF3 g)).data, ?_, ?_⟩
  · unfold kRowFmt
    rw [String.data_append]
    rfl
  · exact noNewline_append _ _ (noNewline_append _ _ (noNewline_append _ _
      (noNewline_append _ _ (noNewline_append _ _ (noNewline_append _ _
      (noNewline_append _ _ (noNewline_append _ _ (noNewline_append _ _
      (noNewline_append _ _ (noNewline_append _ _ (noNewline_append _ _
      (noNewline_append _ _ hsp (noNewline_padRight _ _ ha)) hsp)
      (noNewline_padRight _ _ hb)) hsp) (noNewline_padRight _ _ hc)) hsp)
      (noNewline_padLeft _ _ (noNewline_fmtD d))) hsp)
      (noNewline_padLeft _ _ (noNewline_fmtF3 e))) hsp)
      (noNewline_padLeft _ _ (noNewline_fmtF3 f))) hsp)
      (noNewline_padLeft _ _ (noNewline_fmtF3 g))

theorem textLines_line (body rest : List Char) (h : newline ∉ body) :
    textLines (body ++ newline :: rest) = (body ++ [newline]) :: textLines rest := by
  induction body with
  | nil => simp [textLines]
  | cons c body ih =>
    have hc : c ≠ newline := fun hEq => h (hEq ▸ List.mem_cons_self _ _)
    have hb : newline ∉ body := fun hin => h (List.mem_cons_of_mem _ hin)
    have hrec := ih hb
    simp only [List.cons_append, textLines, hc, if_false]
    change (match textLines (body ++ newline :: rest) with
      | [] => [[c]]
      | line :: lines => (c :: line) :: lines) = _
    rw [hrec]

theorem outputLines_join (lines : List String)
    (h : ∀ l ∈ lines, ∃ body : List Char, l.data = body ++ [newline] ∧ newline ∉ body) :
    outputLines (String.join lines) = lines := by
  induction lines with
  | nil => rfl
  | cons l ls ih =>
    obtain ⟨body, hl, hb⟩ := h l (List.mem_cons_self _ _)
    have ih2 := ih (fun x hx => h x (List.mem_cons_of_mem _ hx))
    unfold outputLines at ih2 ⊢
    rw [join_cons, String.data_append, hl, List.append_assoc, List.singleton_append,
      textLines_line body _ hb, List.map_cons, ih2, ← hl]

theorem headerLine_line :
    ∃ body : List Char, headerLine.data = body ++ [newline] ∧ newline ∉ body :=
  ⟨headerLine.data.dropLast, by decide, by decide⟩

/-- The numerals of `%.3f` where the value is half-way between two of them or next to
such a place: 7.8125 and 0.0625 are `double` values and go to the even neighbour, the
`double` nearest to 0.0005 is above 0.0005 and goes up; 128 frames in one second are
shown with 7.812 ms per frame. -/
theorem fmtF3_half_way :
    fmtF3 (125 / 16) = "7.812" ∧ fmtF3 (1 / 16) = "0.062" ∧ fmtF3 (1 / 2000) = "0.001" ∧
    fmtF3 (-1 / 100000) = "-0.000" ∧ toDouble (1 / 10) = 3602879701896397 / 36028797018963968 ∧
    asTable tieDigitStore = headerLine ++
      " Cubes                   GL         Fast                               128        1.000      128.000        7.812\n" := by
  decide!

theorem fmtD_small (n : Nat) (h : n < 2 ^ 31) : fmtD n = decimal n := by
  have hmod : n % 2 ^ 32 = n := Nat.mod_eq_of_lt (by omega)
  unfold fmtD
  rw [hmod, if_pos h]

end ApiTest
